import Mathlib

/-!
Shallow embedding of the metrics-collection core of the scaleway_exporter
repository (collector/database.go, collector/loadbalancer.go,
collector/bucket.go, the redis collector, and main.go), together with
theorems settling the frozen claims about it.

Modelling conventions:
* Go float64 metric values are modelled as `Rat` (the collectors perform no
  arithmetic on them: values are only copied from API points or set to the
  constants 0, 0.5, 1).
* Timestamps (`time.Time`, compared only via `Before`) are modelled as `Nat`.
* A fallible API call (`Except ScwError`) stands for a Go call returning
  `(result, err)`.
* `sort.Slice` guarantees only that the result is a permutation of the input
  that is sorted with respect to the comparator; the order of elements that
  compare equal is unspecified (the Go sort is not stable).  The relation
  `sortSliceResult` captures exactly this contract; the executable pipeline
  uses `List.insertionSort`, one implementation satisfying the contract.
* Goroutine fan-out joined by a WaitGroup before `Collect` returns is
  modelled by sequential composition of the per-resource outputs; the error
  counter is modelled as the list of increment events appended in program
  order.
* A Go runtime panic (index out of range on an empty `Points` slice, nil
  descriptor dereference) is modelled by `GoResult.panicked`.
* Help strings of Prometheus descriptors are omitted from the model: no
  claim mentions them.
-/

/-- Exposition descriptor: `prometheus.NewDesc(fqName, help, variableLabels, nil)`
(help text omitted, see module docstring). -/
structure Desc where
  fqName : String
  variableLabels : List String
deriving Repr, DecidableEq

/-- One sample of a time series: `scw.TimeSeriesPoint` (Timestamp, Value). -/
structure Point where
  timestamp : Nat
  value : Rat
deriving Repr, DecidableEq

/-- Model of `scw.TimeSeries`: Name, Points, Metadata (a Go string map, modelled as an
association list). -/
structure TimeSeries where
  name : String
  points : List Point
  metadata : List (String × String)
deriving Repr, DecidableEq

/-- Go map indexing `m["k"]`: returns the zero value "" when the key is absent. -/
def metadataGet (m : List (String × String)) (k : String) : String :=
  match m.lookup k with
  | some v => v
  | none => ""

/-- One emitted metric: `prometheus.MustNewConstMetric(desc, GaugeValue, value, labelValues...)`. -/
structure Observation where
  desc : Desc
  value : Rat
  labelValues : List String
deriving Repr, DecidableEq

/-- Log levels of go-kit/log/level used by the collectors. -/
inductive LogLevel
  | debugL
  | infoL
  | warnL
  | errorL
deriving Repr, DecidableEq

/-- One log event (level and the constant part of the message). -/
structure LogEvent where
  level : LogLevel
  msg : String
deriving Repr, DecidableEq

/-- Everything one collector run produces: emitted metrics (in program order
of the sequentialized fan-out), error-counter increment events
`(labelValue, amount)` from `errors.WithLabelValues(label).Add(amount)`, and
log events. -/
structure ScrapeOutput where
  metrics : List Observation
  errorIncs : List (String × Nat)
  logs : List LogEvent
deriving Repr, DecidableEq

def ScrapeOutput.empty : ScrapeOutput := ⟨[], [], []⟩

def ScrapeOutput.append (a b : ScrapeOutput) : ScrapeOutput :=
  ⟨a.metrics ++ b.metrics, a.errorIncs ++ b.errorIncs, a.logs ++ b.logs⟩

/-- Fold a list of per-task outputs into one, in order. -/
def joinOutputs (l : List ScrapeOutput) : ScrapeOutput :=
  l.foldr ScrapeOutput.append ScrapeOutput.empty

/-- Errors surfaced by the scaleway SDK: either a `scw.ResponseError` with an
HTTP status code (matched via `errors.As`), or any other error. -/
inductive ScwError
  | responseError (statusCode : Nat)
  | transportError (msg : String)
deriving Repr, DecidableEq

/-- Test `errors.As(err, &responseError) && responseError.StatusCode == http.StatusNotImplemented`. -/
def isNotImplementedErr : ScwError → Bool
  | .responseError c => c == 501
  | .transportError _ => false

/-- The comparator passed to `sort.Slice`:
`points[i].Timestamp.Before(points[j].Timestamp)` induces sortedness with
respect to non-strict timestamp order. -/
def tsLe (a b : Point) : Prop := a.timestamp ≤ b.timestamp

instance : DecidableRel tsLe := fun a b => Nat.decLe a.timestamp b.timestamp

instance : IsTotal Point tsLe := ⟨fun a b => Nat.le_total a.timestamp b.timestamp⟩

instance : IsTrans Point tsLe := ⟨fun _ _ _ h h2 => Nat.le_trans h h2⟩

/-- Contract of `sort.Slice(points, less)`: the output is a permutation of the
input, sorted with respect to the comparator.  Nothing more is guaranteed; in
particular the order of points with equal timestamps is unspecified (the Go
function `sort.Slice` is documented as not stable; `sort.SliceStable` is not used). -/
def sortSliceResult (input output : List Point) : Prop :=
  output.Perm input ∧ output.Sorted tsLe

/-- The executable sort used by the embedded pipeline: one implementation
satisfying the `sort.Slice` contract. -/
def sortPoints (l : List Point) : List Point := List.insertionSort tsLe l

theorem sortPoints_is_sortSliceResult (l : List Point) :
    sortSliceResult l (sortPoints l) :=
  ⟨List.perm_insertionSort tsLe l, List.sorted_insertionSort tsLe l⟩

/-- Value `float64(points[len(points)-1].Value)` after sorting, as executed by every
collector on a list already known (or assumed by the code) to be nonempty.
The default is irrelevant: the call sites guard against the empty list (or
panic first, see `GoResult`). -/
def latestValueD (l : List Point) : Rat :=
  ((sortPoints l).getLastD ⟨0, 0⟩).value

/-- Result of a Go function that can crash: a runtime panic in a collector
goroutine (the Go runtime then kills the whole process). -/
inductive GoResult (α : Type)
  | ok (value : α)
  | panicked (msg : String)
deriving Repr, DecidableEq

/-! ## Database collector (collector/database.go) -/

/-- The `rdb.InstanceStatus` enum of the scaleway SDK. -/
inductive DbStatus
  | unknown
  | ready
  | provisioning
  | configuring
  | deleting
  | error
  | autohealing
  | locked
  | initializing
  | diskFull
  | backuping
  | snapshotting
  | restarting
deriving Repr, DecidableEq, Fintype

/-- The fields of `rdb.Instance` read by the collector. -/
structure DbInstance where
  id : String
  name : String
  region : String
  engine : String
  nodeType : String
  status : DbStatus
deriving Repr, DecidableEq

def dbLabels : List String := ["id", "name", "region", "engine", "type"]

def dbLabelsNode : List String := ["id", "name", "node"]

def dbUpDesc : Desc := ⟨"scaleway_database_up", dbLabels⟩

def dbCPUsDesc : Desc := ⟨"scaleway_database_cpu_usage_percent", dbLabelsNode⟩

def dbMemoryDesc : Desc := ⟨"scaleway_database_memory_usage_percent", dbLabelsNode⟩

def dbConnectionDesc : Desc := ⟨"scaleway_database_total_connections", dbLabelsNode⟩

def dbDiskDesc : Desc := ⟨"scaleway_database_disk_usage_percent", dbLabelsNode⟩

/-- The status switch of `FetchMetricsForInstance` computing the value of the
`scaleway_database_up` gauge. -/
def databaseUpValue : DbStatus → Rat
  | .ready => 1
  | .backuping => 1
  | .autohealing => 1 / 2
  | _ => 0

/-- The series-name switch of `FetchMetricsForInstance`. -/
def dbSeriesDesc : String → Option Desc
  | "cpu_usage_percent" => some dbCPUsDesc
  | "mem_usage_percent" => some dbMemoryDesc
  | "total_connections" => some dbConnectionDesc
  | "disk_usage_percent" => some dbDiskDesc
  | _ => none

/-- The upstream API as seen by the database collector.  `listInstances`
returns the result pages of `ListInstances`; the call site passes
`scw.WithAllPages()`, i.e. consumes `scwList pages true`. -/
structure DbEnv where
  listInstances : String → Except ScwError (List (List DbInstance))
  getInstanceMetrics : String → String → Except ScwError (List TimeSeries)

/-- SDK pagination: with `scw.WithAllPages()` every page is fetched and
concatenated; without it only the first page is returned. -/
def scwList {α : Type} (pages : List (List α)) (allPages : Bool) : List α :=
  if allPages then pages.flatten else pages.headD []

def dbInstanceLabels (inst : DbInstance) : List String :=
  [inst.id, inst.name, inst.region, inst.engine, inst.nodeType]

def dbUpObservation (inst : DbInstance) : Observation :=
  ⟨dbUpDesc, databaseUpValue inst.status, dbInstanceLabels inst⟩

/-- Body of the `for _, timeseries := range metricResponse.Timeseries` loop of
`FetchMetricsForInstance` for one series. -/
def dbHandleSeries (inst : DbInstance) (ts : TimeSeries) : ScrapeOutput :=
  match dbSeriesDesc ts.name with
  | none => ⟨[], [], [⟨.debugL, "unmapped scaleway metric"⟩]⟩
  | some d =>
    if ts.points.isEmpty then
      ⟨[], [("database", 1)], [⟨.warnL, "no data were returned for the metric"⟩]⟩
    else
      ⟨[⟨d, latestValueD ts.points,
          [inst.id, inst.name, metadataGet ts.metadata "node"]⟩], [], []⟩

/-- Model of `DatabaseCollector.FetchMetricsForInstance`: emits the up gauge from the
status enum, then fetches the instance metrics; a fetch failure increments the
counter, warn-logs and returns (the up gauge is already emitted). -/
def fetchMetricsForInstance (env : DbEnv) (inst : DbInstance) : ScrapeOutput :=
  let upOut : ScrapeOutput := ⟨[dbUpObservation inst], [], []⟩
  match env.getInstanceMetrics inst.region inst.id with
  | .error _ =>
    upOut.append ⟨[], [("database", 1)], [⟨.warnL, "cannot fetch the metric for the instance"⟩]⟩
  | .ok series => upOut.append (joinOutputs (series.map (dbHandleSeries inst)))

/-- Model of `DatabaseCollector.Collect`: iterates the configured regions; on a list
failure it increments the counter, warn-logs and executes `return`, so the
remaining regions of the loop are not processed in that scrape. -/
def dbCollect (env : DbEnv) (regions : List String) : ScrapeOutput :=
  match regions with
  | [] => ScrapeOutput.empty
  | r :: rest =>
    match env.listInstances r with
    | .error _ =>
      ⟨[], [("database", 1)], [⟨.warnL, "cannot fetch the list of databases"⟩]⟩
    | .ok pages =>
      let instances := scwList pages true
      let regionOut :=
        (⟨[], [], [⟨.debugL, "found database instances"⟩]⟩ : ScrapeOutput).append
          (joinOutputs (instances.map (fetchMetricsForInstance env)))
      regionOut.append (dbCollect env rest)

/-! ## Load balancer collector (collector/loadbalancer.go) -/

/-- The `lb.LBStatus` enum of the scaleway SDK. -/
inductive LbStatus
  | unknown
  | ready
  | pending
  | stopped
  | error
  | locked
  | migrating
  | creating
  | deleting
  | toCreate
  | toDelete
deriving Repr, DecidableEq, Fintype

/-- The fields of `lb.LB` read by the collector. -/
structure LbInstance where
  id : String
  name : String
  zone : String
  typ : String
  status : LbStatus
deriving Repr, DecidableEq

def lbLabels : List String := ["id", "name", "zone", "type"]

def lbUpDesc : Desc := ⟨"scaleway_loadbalancer_up", lbLabels⟩

def lbNetworkReceiveDesc : Desc := ⟨"scaleway_loadbalancer_network_receive_bits_sec", lbLabels⟩

def lbNetworkTransmitDesc : Desc := ⟨"scaleway_loadbalancer_network_transmit_bits_sec", lbLabels⟩

def lbConnectionDesc : Desc := ⟨"scaleway_loadbalancer_total_connections", lbLabels⟩

def lbNewConnectionDesc : Desc := ⟨"scaleway_loadbalancer_new_connection_rate_sec", lbLabels⟩

/-- The status switch of `FetchLoadbalancerMetrics` computing the value of the
`scaleway_loadbalancer_up` gauge (every case is written out in the source; the
final default is unreachable over the enum). -/
def lbUpValue : LbStatus → Rat
  | .ready => 1
  | .deleting => 1 / 2
  | .creating => 1 / 2
  | .migrating => 1 / 2
  | .toDelete => 1 / 2
  | .error => 0
  | .unknown => 0
  | .locked => 0
  | .pending => 0
  | .stopped => 0
  | .toCreate => 0

/-- Outcome of the series-name switch of `FetchLoadbalancerMetrics`:
`server_status` is skipped with a bare `continue` (no log). -/
inductive LbSeriesCase
  | mapped (d : Desc)
  | serverStatus
  | unmapped
deriving Repr, DecidableEq

def lbSeriesCaseOf : String → LbSeriesCase
  | "node_network_receive_bits_sec" => .mapped lbNetworkReceiveDesc
  | "node_network_transmit_bits_sec" => .mapped lbNetworkTransmitDesc
  | "current_connection_rate_sec" => .mapped lbConnectionDesc
  | "current_new_connection_rate_sec" => .mapped lbNewConnectionDesc
  | "server_status" => .serverStatus
  | _ => .unmapped

/-- The upstream API as seen by the load balancer collector.  `listLBs`
returns the pages of `ListLBs`; the call site passes `scw.WithAllPages()`.
`getLbMetrics` is the raw `client.Do` call on the `/lb-private/...` path. -/
structure LbEnv where
  listLBs : String → Except ScwError (List (List LbInstance))
  getLbMetrics : String → String → Except ScwError (List TimeSeries)

def lbInstanceLabels (l : LbInstance) : List String :=
  [l.id, l.name, l.zone, l.typ]

def lbUpObservation (l : LbInstance) : Observation :=
  ⟨lbUpDesc, lbUpValue l.status, lbInstanceLabels l⟩

/-- Body of the series loop of `FetchLoadbalancerMetrics`.  Note the
empty-series branch increments the error counter with label value
`"database"`, not `"loadbalancer"` — exactly as written in the source. -/
def lbHandleSeries (l : LbInstance) (ts : TimeSeries) : ScrapeOutput :=
  match lbSeriesCaseOf ts.name with
  | .serverStatus => ScrapeOutput.empty
  | .unmapped => ⟨[], [], [⟨.debugL, "unmapped scaleway metric"⟩]⟩
  | .mapped d =>
    if ts.points.isEmpty then
      ⟨[], [("database", 1)], [⟨.warnL, "no data were returned for the metric"⟩]⟩
    else
      ⟨[⟨d, latestValueD ts.points, lbInstanceLabels l⟩], [], []⟩

/-- Model of `LoadBalancerCollector.FetchLoadbalancerMetrics`. -/
def fetchLoadbalancerMetrics (env : LbEnv) (l : LbInstance) : ScrapeOutput :=
  let upOut : ScrapeOutput := ⟨[lbUpObservation l], [], []⟩
  match env.getLbMetrics l.zone l.id with
  | .error _ =>
    upOut.append ⟨[], [("loadbalancer", 1)], [⟨.warnL, "cannot fetch the metric for the loadbalancer"⟩]⟩
  | .ok series => upOut.append (joinOutputs (series.map (lbHandleSeries l)))

/-- Model of `LoadBalancerCollector.Collect`: iterates the zones; a 501 response from
`ListLBs` debug-logs and executes `return` (no counter increment), any other
failure increments the counter, warn-logs and executes `return`; in both cases
the remaining zones of the loop are not processed in that scrape. -/
def lbCollect (env : LbEnv) (zones : List String) : ScrapeOutput :=
  match zones with
  | [] => ScrapeOutput.empty
  | z :: rest =>
    match env.listLBs z with
    | .error e =>
      if isNotImplementedErr e then
        ⟨[], [], [⟨.debugL, "Loadbalancer is not supported in this zone"⟩]⟩
      else
        ⟨[], [("loadbalancer", 1)], [⟨.warnL, "cannot fetch the list of loadbalancers"⟩]⟩
    | .ok pages =>
      let lbs := scwList pages true
      let zoneOut :=
        (⟨[], [], [⟨.debugL, "found loadbalancer instances"⟩]⟩ : ScrapeOutput).append
          (joinOutputs (lbs.map (fetchLoadbalancerMetrics env)))
      zoneOut.append (lbCollect env rest)

/-! ## Redis collector (the redis collector source file) -/

/-- The `redis.ClusterStatus` enum of the scaleway SDK. -/
inductive RedisStatus
  | unknown
  | ready
  | provisioning
  | configuring
  | deleting
  | error
  | autohealing
  | locked
  | suspended
  | initializing
deriving Repr, DecidableEq, Fintype

/-- The fields of `redis.Cluster` relevant to the claims: the collector reads
`ID` and `Name`; `Status` is present on the SDK struct (carried by every
fetched cluster) but never read by the collector. -/
structure RedisCluster where
  id : String
  name : String
  status : RedisStatus
deriving Repr, DecidableEq

def redisLabels : List String := ["id", "name", "node"]

def redisCPUDesc : Desc := ⟨"scaleway_redis_cpu_usage_percent", redisLabels⟩

def redisMemDesc : Desc := ⟨"scaleway_redis_memory_usage_percent", redisLabels⟩

def redisDbMemDesc : Desc := ⟨"scaleway_redis_db_memory_usage_percent", redisLabels⟩

def redisSeriesDesc : String → Option Desc
  | "cpu_usage_percent" => some redisCPUDesc
  | "mem_usage_percent" => some redisMemDesc
  | "db_memory_usage_percent" => some redisDbMemDesc
  | _ => none

/-- The upstream API as seen by the redis collector.  `listClusters` returns
the pages of `ListClusters`; the call site passes NO pagination option
(`scw.WithAllPages()` is absent), so only the first page is consumed. -/
structure RedisEnv where
  listClusters : String → Except ScwError (List (List RedisCluster))
  getClusterMetrics : String → String → Except ScwError (List TimeSeries)

/-- Body of the series loop of `FetchRedisMetrics`. -/
def redisHandleSeries (cl : RedisCluster) (ts : TimeSeries) : ScrapeOutput :=
  match redisSeriesDesc ts.name with
  | none => ⟨[], [], [⟨.debugL, "unmapped scaleway metric"⟩]⟩
  | some d =>
    if ts.points.isEmpty then
      ⟨[], [("redis", 1)], [⟨.warnL, "no data were returned for the metric"⟩]⟩
    else
      ⟨[⟨d, latestValueD ts.points,
          [cl.id, cl.name, metadataGet ts.metadata "node"]⟩], [], []⟩

/-- Model of `RedisCollector.FetchRedisMetrics`: fetches the cluster metrics first;
no liveness gauge is emitted at any point (the collector declares no up
descriptor). -/
def fetchRedisMetrics (env : RedisEnv) (zone : String) (cl : RedisCluster) : ScrapeOutput :=
  match env.getClusterMetrics zone cl.id with
  | .error _ =>
    ⟨[], [("redis", 1)], [⟨.warnL, "cannot fetch the metric for the redis cluster"⟩]⟩
  | .ok series => joinOutputs (series.map (redisHandleSeries cl))

/-- Model of `RedisCollector.Collect`: iterates the zones; a 501 response from
`ListClusters` debug-logs and executes `return` (no counter increment), any
other failure increments the counter with label value `"clusters"` (not
`"redis"` — exactly as written in the source), warn-logs and executes
`return`; in both cases the remaining zones are not processed. -/
def redisCollect (env : RedisEnv) (zones : List String) : ScrapeOutput :=
  match zones with
  | [] => ScrapeOutput.empty
  | z :: rest =>
    match env.listClusters z with
    | .error e =>
      if isNotImplementedErr e then
        ⟨[], [], [⟨.debugL, "Loadbalancer is not supported in this zone"⟩]⟩
      else
        ⟨[], [("clusters", 1)], [⟨.warnL, "cannot fetch the list of clusters"⟩]⟩
    | .ok pages =>
      let clusters := scwList pages false
      let zoneOut := joinOutputs (clusters.map (fetchRedisMetrics env z))
      zoneOut.append (redisCollect env rest)

/-! ## Bucket collector (collector/bucket.go) -/

/-- The `MetricName` constants of collector/bucket.go. -/
inductive BucketMetricName
  | objectCount
  | storageUsage
  | bytesSent
deriving Repr, DecidableEq

/-- The field of `BucketInfo` read by `FetchMetricsForBucket` (the other JSON
fields are never read on the metric path). -/
structure BucketInfo where
  isPublic : Bool
deriving Repr, DecidableEq

def bucketLabels : List String := ["name", "region", "public"]

def objectCountDesc : Desc := ⟨"scaleway_s3_object_total", bucketLabels⟩

def bandwidthDesc : Desc := ⟨"scaleway_s3_bandwidth_bytes", bucketLabels⟩

def storageUsageStandardDesc : Desc := ⟨"scaleway_s3_storage_usage_standard_bytes", bucketLabels⟩

def storageUsageGlacierDesc : Desc := ⟨"scaleway_s3_storage_usage_glacier_bytes", bucketLabels⟩

/-- The `DescMatrix` passed to `HandleMultiMetrics` for `storage_usage`. -/
def storageDescMatrix : List (String × Desc) :=
  [("STANDARD", storageUsageStandardDesc), ("GLACIER", storageUsageGlacierDesc)]

/-- The upstream API as seen by the per-bucket metric path:
`BucketCollector.FetchMetric` (bucket name, metric name). -/
structure BucketEnv where
  region : String
  fetchMetric : String → BucketMetricName → Except ScwError (List TimeSeries)

/-- Rendering `fmt.Sprint` of a Go bool. -/
def goBoolString (b : Bool) : String := if b then "true" else "false"

/-- The series loop of `HandleSimpleMetric`.  There is NO empty-points guard in
the source: `timeseries.Points[len(timeseries.Points)-1]` is evaluated
unconditionally, so a series with zero points is an index-out-of-range runtime
panic. -/
def bucketSimpleSeriesLoop (d : Desc) (labels : List String) :
    List TimeSeries → GoResult (List Observation)
  | [] => .ok []
  | ts :: rest =>
    if ts.points.isEmpty then
      .panicked "runtime error: index out of range"
    else
      match bucketSimpleSeriesLoop d labels rest with
      | .ok obs => .ok (⟨d, latestValueD ts.points, labels⟩ :: obs)
      | .panicked m => .panicked m

/-- The series loop of `HandleMultiMetrics`: same missing empty-points guard;
additionally `DescMatrix[metadata type]` yields a nil descriptor for an
unknown storage class, which `MustNewConstMetric` dereferences. -/
def bucketMultiSeriesLoop (matrix : List (String × Desc)) (labels : List String) :
    List TimeSeries → GoResult (List Observation)
  | [] => .ok []
  | ts :: rest =>
    if ts.points.isEmpty then
      .panicked "runtime error: index out of range"
    else
      match matrix.lookup (metadataGet ts.metadata "type") with
      | none => .panicked "runtime error: invalid memory address or nil pointer dereference"
      | some d =>
        match bucketMultiSeriesLoop matrix labels rest with
        | .ok obs => .ok (⟨d, latestValueD ts.points, labels⟩ :: obs)
        | .panicked m => .panicked m

/-- Model of `BucketCollector.HandleSimpleMetric`. -/
def handleSimpleMetric (env : BucketEnv) (bucket : String) (mn : BucketMetricName)
    (d : Desc) (labels : List String) : GoResult ScrapeOutput :=
  match env.fetchMetric bucket mn with
  | .error _ =>
    .ok ⟨[], [("bucket", 1)], [⟨.warnL, "cannot fetch the metric for the bucket"⟩]⟩
  | .ok series =>
    match bucketSimpleSeriesLoop d labels series with
    | .ok obs => .ok ⟨obs, [], []⟩
    | .panicked m => .panicked m

/-- Model of `BucketCollector.HandleMultiMetrics`: on a fetch failure the counter is
incremented by `float64(len(options.DescMatrix))`, i.e. by 2 for the storage
matrix — exactly as written in the source. -/
def handleMultiMetrics (env : BucketEnv) (bucket : String) (mn : BucketMetricName)
    (matrix : List (String × Desc)) (labels : List String) : GoResult ScrapeOutput :=
  match env.fetchMetric bucket mn with
  | .error _ =>
    .ok ⟨[], [("bucket", matrix.length)], [⟨.warnL, "cannot fetch the metric for the bucket"⟩]⟩
  | .ok series =>
    match bucketMultiSeriesLoop matrix labels series with
    | .ok obs => .ok ⟨obs, [], []⟩
    | .panicked m => .panicked m

def GoResult.appendOut (a b : GoResult ScrapeOutput) : GoResult ScrapeOutput :=
  match a with
  | .panicked m => .panicked m
  | .ok x =>
    match b with
    | .panicked m => .panicked m
    | .ok y => .ok (x.append y)

/-- The `labels` local of `FetchMetricsForBucket`:
`[]string{name, fmt.Sprint(c.region), fmt.Sprint(bucket.IsPublic)}`. -/
def bucketFetchLabels (env : BucketEnv) (name : String) (info : BucketInfo) : List String :=
  [name, env.region, goBoolString info.isPublic]

/-- Model of `BucketCollector.FetchMetricsForBucket`: three handler goroutines joined
by a WaitGroup, sequentialized here; a panic in any of them crashes the
process. -/
def fetchMetricsForBucket (env : BucketEnv) (name : String) (info : BucketInfo) :
    GoResult ScrapeOutput :=
  (handleSimpleMetric env name .objectCount objectCountDesc
      (bucketFetchLabels env name info)).appendOut
    ((handleSimpleMetric env name .bytesSent bandwidthDesc
        (bucketFetchLabels env name info)).appendOut
      (handleMultiMetrics env name .storageUsage storageDescMatrix
        (bucketFetchLabels env name info)))

/-! ## Constructors and the error counter (NewXxxCollector, main.go) -/

/-- The error CounterVec state, as the sequence of `Add` events
`(labelValue, amount)` applied to `scaleway_errors_total` (label key
`collector`, main.go). -/
abbrev CounterState : Type := List (String × Nat)

/-- Value currently exposed for one label value: `none` when the child series
was never created (no `WithLabelValues` call touched it), otherwise the sum of
its increments. -/
def counterValue (s : CounterState) (label : String) : Option Nat :=
  if s.any (fun e => e.1 == label) then
    some ((s.filter (fun e => e.1 == label)).foldl (fun acc e => acc + e.2) 0)
  else
    none

/-- Call `errors.WithLabelValues("database").Add(0)` in `NewDatabaseCollector`. -/
def newDatabaseCollectorCounter (s : CounterState) : CounterState :=
  s ++ [("database", 0)]

/-- Call `errors.WithLabelValues("bucket").Add(0)` in `NewBucketCollector`. -/
def newBucketCollectorCounter (s : CounterState) : CounterState :=
  s ++ [("bucket", 0)]

/-- Call `errors.WithLabelValues("loadbalancer").Add(0)` in `NewLoadBalancerCollector`. -/
def newLoadBalancerCollectorCounter (s : CounterState) : CounterState :=
  s ++ [("loadbalancer", 0)]

/-- Call `errors.WithLabelValues("redis").Add(0)` in `NewRedisCollector`. -/
def newRedisCollectorCounter (s : CounterState) : CounterState :=
  s ++ [("redis", 0)]

/-- The counter state right after main.go has registered the bucket, database,
load balancer and redis collectors (in registration order), before any scrape. -/
def mainInitCounter : CounterState :=
  newRedisCollectorCounter
    (newLoadBalancerCollectorCounter
      (newDatabaseCollectorCounter
        (newBucketCollectorCounter [])))

/-! ## Billing collector (the billing collector source file) -/

/-- One project under the organization: the `account.Project` fields read by
the collector (ID, Name). -/
structure BillingProject where
  id : String
  name : String
deriving Repr, DecidableEq

/-- Nested `ConsumptionValue` of the billing response body. -/
structure ConsumptionValue where
  currencyCode : String
  units : Int
  nanos : Nat
deriving Repr, DecidableEq

/-- One `Consumption` entry of the billing response body. -/
structure Consumption where
  description : String
  projectID : String
  category : String
  operationPath : String
  value : ConsumptionValue
deriving Repr, DecidableEq

/-- The `BillingResponse` body: consumption entries plus the self-declared
last-update time, read only through `UpdatedAt.Unix()` and therefore modelled
as the epoch integer. -/
structure BillingResponse where
  consumptions : List Consumption
  updatedAtUnix : Int
deriving Repr, DecidableEq

/-- The upstream API as seen by the billing collector: `ListProjects` result
pages (the call site passes `scw.WithAllPages()`) and the raw consumption
request on `/billing/v2alpha1/consumption`. -/
structure BillingEnv where
  listProjects : String → Except ScwError (List (List BillingProject))
  getConsumption : String → Except ScwError BillingResponse

def billingLabels : List String :=
  ["project_id", "project_name", "category", "operation_path", "description",
    "currency_code"]

def consumptionsDesc : Desc := ⟨"scaleway_billing_consumptions", billingLabels⟩

def updateDesc : Desc := ⟨"scaleway_billing_update_timestamp_seconds", []⟩

/-- Value `float64(consumption.Value.Units) + float64(consumption.Value.Nanos)/1e9`,
modelled as the exact rational (the float64 rounding plays no role in any
claim). -/
def consumptionValueRat (v : ConsumptionValue) : Rat :=
  v.units + (v.nanos : Rat) / 1000000000

/-- The `projects` map built from the listing (`projects[project.ID] = project.Name`),
indexed like a Go map: zero value "" when the ID is absent. -/
def billingProjectsMap (ps : List BillingProject) : List (String × String) :=
  ps.map (fun p => (p.id, p.name))

/-- The `Consumptions` emission of the billing Collect loop: label values
positionally [project_id, project_name, category, operation_path,
description, currency_code], matching `billingLabels`. -/
def billingConsumptionObs (ps : List BillingProject) (co : Consumption) : Observation :=
  ⟨consumptionsDesc, consumptionValueRat co.value,
    [co.projectID, metadataGet (billingProjectsMap ps) co.projectID,
      co.category, co.operationPath, co.description, co.value.currencyCode]⟩

/-- Model of `BillingCollector.Collect`: list the projects of the organization
(all pages); a list failure increments the "billing" counter and warn-logs; an
empty project list increments the "billing" counter and logs at ERROR level;
otherwise one aggregate consumption report is fetched (failure: increment and
warn), one observation is emitted per consumption entry, and one unlabeled
freshness gauge carries the report epoch. -/
def billingCollect (env : BillingEnv) (orgID : String) : ScrapeOutput :=
  match env.listProjects orgID with
  | .error _ =>
    ⟨[], [("billing", 1)], [⟨.warnL, "cannot fetch the list of projects"⟩]⟩
  | .ok pages =>
    if (scwList pages true).isEmpty then
      ⟨[], [("billing", 1)], [⟨.errorL, "No projects were found"⟩]⟩
    else
      match env.getConsumption orgID with
      | .error _ =>
        ⟨[], [("billing", 1)], [⟨.warnL, "Could not fetch the billing data"⟩]⟩
      | .ok resp =>
        ⟨(resp.consumptions.map (billingConsumptionObs (scwList pages true))) ++
            [⟨updateDesc, (resp.updatedAtUnix : Rat), []⟩], [], []⟩

/-- Call `errors.WithLabelValues("bucket").Add(0)` in `NewBillingCollector` —
the label value written in the source is "bucket", not "billing". -/
def newBillingCollectorCounter (s : CounterState) : CounterState :=
  s ++ [("bucket", 0)]

/-- The counter state after the main.go registration sequence with the
billing collector enabled: billing, bucket, database, load balancer, redis,
in registration order. -/
def mainInitCounterWithBilling : CounterState :=
  newRedisCollectorCounter
    (newLoadBalancerCollectorCounter
      (newDatabaseCollectorCounter
        (newBucketCollectorCounter
          (newBillingCollectorCounter []))))

/-! ## Helper lemmas -/

theorem ScrapeOutput.empty_append (a : ScrapeOutput) : ScrapeOutput.empty.append a = a := by
  cases a
  simp [ScrapeOutput.append, ScrapeOutput.empty]

theorem ScrapeOutput.append_assoc (a b c : ScrapeOutput) :
    (a.append b).append c = a.append (b.append c) := by
  cases a
  cases b
  cases c
  simp [ScrapeOutput.append]

theorem joinOutputs_cons (x : ScrapeOutput) (l : List ScrapeOutput) :
    joinOutputs (x :: l) = x.append (joinOutputs l) := rfl

theorem joinOutputs_metrics (l : List ScrapeOutput) :
    (joinOutputs l).metrics = (l.map ScrapeOutput.metrics).flatten := by
  induction l with
  | nil => rfl
  | cons x t ih => simp [joinOutputs_cons, ScrapeOutput.append, ih]

theorem mem_joinOutputs {o : Observation} {l : List ScrapeOutput} :
    o ∈ (joinOutputs l).metrics ↔ ∃ x ∈ l, o ∈ x.metrics := by
  simp [joinOutputs_metrics]

theorem mem_of_getLast?_eq {α : Type} :
    ∀ {l : List α} {a : α}, l.getLast? = some a → a ∈ l
  | [], _, h => by simp at h
  | [x], a, h => by
    simp at h
    simp [h]
  | x :: y :: t, a, h => by
    rw [List.getLast?_cons_cons] at h
    exact List.mem_cons_of_mem x (mem_of_getLast?_eq h)

/-- In a list sorted by timestamp, the last element has a maximal timestamp. -/
theorem sorted_le_getLast? :
    ∀ {l : List Point}, l.Sorted tsLe → ∀ {p : Point}, l.getLast? = some p →
      ∀ q ∈ l, q.timestamp ≤ p.timestamp
  | [], _, _, h => by simp at h
  | [x], _, p, h => by
    simp at h
    intro q hq
    simp at hq
    simp [hq, h]
  | x :: y :: t, hs, p, h => by
    rw [List.getLast?_cons_cons] at h
    rw [List.sorted_cons] at hs
    intro q hq
    rcases List.mem_cons.mp hq with hqx | hqt
    · subst hqx
      exact Nat.le_trans (hs.1 p (mem_of_getLast?_eq h)) (Nat.le_refl _)
    · exact sorted_le_getLast? hs.2 h q hqt

/-! ## Claim C2: the Sample Reducer -/

/-- A point of `c2Input` tied on the maximum timestamp with a different value
in last position. -/
def c2Input : List Point := [⟨5, 10⟩, ⟨5, 20⟩]

/-- A permutation of `c2Input` that is sorted with respect to the `sort.Slice`
comparator: a legal result of the unstable sort. -/
def c2AltOutput : List Point := [⟨5, 20⟩, ⟨5, 10⟩]

/-- Claim C2 counterexample: the claim, at the concrete input `c2Input` (two
points tied at the maximum timestamp, last tied value 20), states that the
reduction deterministically returns 20 — formally, that every legal result of
the `sort.Slice` call reduces to 20.  That proposition is FALSE: the sorted
permutation `c2AltOutput` is a legal result of the unstable `sort.Slice`
(`sort.SliceStable` is not used) and reduces to the first tied value 10.  The
claimed tie rule "stable sort by timestamp ascending, take the last tied point
in input order" is therefore not a property of the code. -/
theorem claim_C2_counterexample :
    (∀ p ∈ c2Input, p.timestamp = 5) ∧
      c2Input.getLast?.map Point.value = some 20 ∧
      sortSliceResult c2Input c2AltOutput ∧
      c2AltOutput.getLast?.map Point.value = some 10 ∧
      ¬(∀ output : List Point, sortSliceResult c2Input output →
          output.getLast?.map Point.value = some 20) := by
  refine ⟨by decide, by decide, ⟨by decide, by decide⟩, by decide, fun h => ?_⟩
  exact absurd (h c2AltOutput ⟨by decide, by decide⟩) (by decide)

/-- Claim C2 (amended): for every TimeSeries with at least one Point, every
legal result of the `sort.Slice` reduction step ends in a point of the input
that attains the maximum timestamp (so the emitted value is the value of a
maximum-timestamp point, regardless of input order, and the step never fails
on duplicate timestamps); when the maximal point is unique the result is
exactly that point.  Which tied point wins on duplicate maximum timestamps is
NOT specified (see the counterexample). -/
theorem claim_C2 (input output : List Point) (hne : input ≠ [])
    (hs : sortSliceResult input output) :
    ∃ p : Point, output.getLast? = some p ∧ p ∈ input ∧
      (∀ q ∈ input, q.timestamp ≤ p.timestamp) ∧
      (∀ r : Point, r ∈ input → (∀ q ∈ input, q.timestamp ≤ r.timestamp) →
        (∀ q ∈ input, q.timestamp = r.timestamp → q = r) → p = r) := by
  obtain ⟨hperm, hsorted⟩ := hs
  have hneOut : output ≠ [] := by
    intro h
    rw [h] at hperm
    exact hne (List.Perm.eq_nil hperm.symm)
  obtain ⟨p, hp⟩ : ∃ p, output.getLast? = some p := by
    cases houtput : output with
    | nil => exact absurd houtput hneOut
    | cons x t => exact ⟨(x :: t).getLast (by simp), by simp [List.getLast?_eq_getLast]⟩
  refine ⟨p, hp, hperm.mem_iff.mp (mem_of_getLast?_eq hp), ?_, ?_⟩
  · intro q hq
    exact sorted_le_getLast? hsorted hp q (hperm.mem_iff.mpr hq)
  · intro r hr hrmax hruniq
    have hpin : p ∈ input := hperm.mem_iff.mp (mem_of_getLast?_eq hp)
    have h1 : p.timestamp ≤ r.timestamp := hrmax p hpin
    have h2 : r.timestamp ≤ p.timestamp :=
      sorted_le_getLast? hsorted hp r (hperm.mem_iff.mpr hr)
    exact hruniq p hpin (Nat.le_antisymm h1 h2)

/-- Witness for C2: the reducer on the concrete unsorted series
[(t=3, v=7), (t=1, v=4)] returns the point (t=3, v=7). -/
theorem claim_C2_witness :
    ∃ p : Point, ([⟨1, 4⟩, ⟨3, 7⟩] : List Point).getLast? = some p ∧
      p ∈ ([⟨3, 7⟩, ⟨1, 4⟩] : List Point) ∧
      (∀ q ∈ ([⟨3, 7⟩, ⟨1, 4⟩] : List Point), q.timestamp ≤ p.timestamp) ∧
      (∀ r : Point, r ∈ ([⟨3, 7⟩, ⟨1, 4⟩] : List Point) →
        (∀ q ∈ ([⟨3, 7⟩, ⟨1, 4⟩] : List Point), q.timestamp ≤ r.timestamp) →
        (∀ q ∈ ([⟨3, 7⟩, ⟨1, 4⟩] : List Point), q.timestamp = r.timestamp → q = r) → p = r) :=
  claim_C2 [⟨3, 7⟩, ⟨1, 4⟩] [⟨1, 4⟩, ⟨3, 7⟩] (by decide) ⟨by decide, by decide⟩

/-! ## Claim C6: the three-tier liveness mapping -/

/-- Environment for the C6 counterexample: metrics calls succeed with an
empty series list. -/
def c6Env : DbEnv := ⟨fun _ => .ok [], fun _ _ => .ok []⟩

/-- A database instance whose status is `deleting` — a transitional status in
the claimed tier list. -/
def c6Inst : DbInstance :=
  ⟨"11111111-aaaa-bbbb-cccc-000000000001", "db-one", "fr-par", "PostgreSQL-14",
    "db-dev-s", .deleting⟩

/-- Claim C6 counterexample: the claim puts the transitional statuses
`deleting` and `provisioning` in the 0.5 tier, but the database collector maps
both to 0.0 (its switch only maps `ready` and `backuping` to 1.0 and
`autohealing` to 0.5): the up observation emitted for a deleting instance has
value 0, not 0.5. -/
theorem claim_C6_counterexample :
    c6Inst.status = DbStatus.deleting ∧
      (fetchMetricsForInstance c6Env c6Inst).metrics.map Observation.value = [0] ∧
      databaseUpValue DbStatus.provisioning = 0 ∧
      ¬((0 : Rat) = 1 / 2) := by
  refine ⟨rfl, rfl, rfl, by norm_num⟩

/-- Claim C6 (amended): every discovered resource gets exactly one up
observation, emitted with the value of a family-specific three-tier status
switch, but the tier membership differs from the claim: the database collector
maps ready and backuping to 1.0, only autohealing to 0.5, and every other
status (including the transitional provisioning, configuring, deleting,
initializing, snapshotting, restarting) to 0.0; the load balancer collector
maps ready to 1.0, creating, migrating, deleting and to_delete to 0.5, and
every other status (error, unknown, locked, pending, stopped, to_create)
to 0.0. -/
theorem claim_C6 :
    (∀ (env : DbEnv) (inst : DbInstance),
      (fetchMetricsForInstance env inst).metrics.head? =
        some ⟨dbUpDesc, databaseUpValue inst.status, dbInstanceLabels inst⟩) ∧
    (∀ (env : LbEnv) (l : LbInstance),
      (fetchLoadbalancerMetrics env l).metrics.head? =
        some ⟨lbUpDesc, lbUpValue l.status, lbInstanceLabels l⟩) ∧
    (∀ s : DbStatus,
      (databaseUpValue s = 1 ↔ (s = .ready ∨ s = .backuping)) ∧
      (databaseUpValue s = 1 / 2 ↔ s = .autohealing) ∧
      (databaseUpValue s = 0 ↔ ¬(s = .ready ∨ s = .backuping ∨ s = .autohealing))) ∧
    (∀ s : LbStatus,
      (lbUpValue s = 1 ↔ s = .ready) ∧
      (lbUpValue s = 1 / 2 ↔
        (s = .creating ∨ s = .migrating ∨ s = .deleting ∨ s = .toDelete)) ∧
      (lbUpValue s = 0 ↔
        ¬(s = .ready ∨ s = .creating ∨ s = .migrating ∨ s = .deleting ∨ s = .toDelete))) := by
  refine ⟨?_, ?_, ?_, ?_⟩
  case refine_3 =>
    intro s
    cases s <;> refine ⟨by norm_num [databaseUpValue] <;> decide, by norm_num [databaseUpValue] <;> decide, by norm_num [databaseUpValue] <;> decide⟩
  case refine_4 =>
    intro s
    cases s <;> refine ⟨by norm_num [lbUpValue] <;> decide, by norm_num [lbUpValue] <;> decide, by norm_num [lbUpValue] <;> decide⟩
  · intro env inst
    unfold fetchMetricsForInstance
    cases env.getInstanceMetrics inst.region inst.id <;>
      simp [ScrapeOutput.append, dbUpObservation]
  · intro env l
    unfold fetchLoadbalancerMetrics
    cases env.getLbMetrics l.zone l.id <;>
      simp [ScrapeOutput.append, lbUpObservation]

/-! ## Claim C3: empty series handling -/

/-- Environment for C3: the bucket metric endpoint answers with one
`object_count` TimeSeries that has zero points. -/
def c3Env : BucketEnv :=
  ⟨"fr-par", fun _ _ => .ok [⟨"object_count", [], []⟩]⟩

/-- An empty-points series with a known database metric name, for contrast. -/
def c3DbSeries : TimeSeries := ⟨"cpu_usage_percent", [], []⟩

def c3DbInst : DbInstance :=
  ⟨"11111111-aaaa-bbbb-cccc-000000000002", "db-two", "fr-par", "PostgreSQL-14",
    "db-dev-s", .ready⟩

/-- Claim C3, evaluated at the failing input: the database collector treats an
empty series as the claim says (one counter increment, a warning, the series
skipped), but `BucketCollector.HandleSimpleMetric` has no empty-points guard —
`timeseries.Points[len(timeseries.Points)-1]` runs unconditionally, so a known
metric with zero points is an index-out-of-range runtime panic in a collector
goroutine (which kills the process), not a soft failure. -/
theorem claim_C3 :
    dbHandleSeries c3DbInst c3DbSeries =
      ⟨[], [("database", 1)], [⟨.warnL, "no data were returned for the metric"⟩]⟩ ∧
    handleSimpleMetric c3Env "my-bucket" .objectCount objectCountDesc
        ["my-bucket", "fr-par", "false"] =
      .panicked "runtime error: index out of range" := by
  exact ⟨rfl, rfl⟩

/-! ## Claim C10: constructors pre-register the error counter at 0 -/

/-- Claim C10 counterexample: `NewBillingCollector` runs
`errors.WithLabelValues("bucket").Add(0)` — the label value written in the
source is "bucket", not "billing" — so after the billing constructor (and
after the full main.go registration sequence with billing enabled) the
"billing" error series does not exist at all, refuting "for every collector
family ... the series exists with value 0 from process start" for the billing
family. -/
theorem claim_C10_counterexample :
    newBillingCollectorCounter [] = [("bucket", 0)] ∧
      counterValue (newBillingCollectorCounter []) "billing" = none ∧
      counterValue mainInitCounterWithBilling "billing" = none := by
  refine ⟨rfl, rfl, rfl⟩

/-- Claim C10 (amended): the bucket, database, load balancer and redis
constructors each perform `errors.WithLabelValues(<own family>).Add(0)`, so
those four per-family error series exist and expose value 0 from process
start (after each individual constructor and after the full main.go
registration sequence); `NewBillingCollector` instead registers the label
"bucket" a second time, so the billing family is the one exception: no series
labeled "billing" exists until the first billing failure during a scrape. -/
theorem claim_C10 :
    counterValue mainInitCounterWithBilling "database" = some 0 ∧
    counterValue mainInitCounterWithBilling "bucket" = some 0 ∧
    counterValue mainInitCounterWithBilling "loadbalancer" = some 0 ∧
    counterValue mainInitCounterWithBilling "redis" = some 0 ∧
    counterValue mainInitCounterWithBilling "billing" = none ∧
    counterValue mainInitCounter "database" = some 0 ∧
    counterValue mainInitCounter "bucket" = some 0 ∧
    counterValue mainInitCounter "loadbalancer" = some 0 ∧
    counterValue mainInitCounter "redis" = some 0 ∧
    counterValue (newDatabaseCollectorCounter []) "database" = some 0 ∧
    counterValue (newBucketCollectorCounter []) "bucket" = some 0 ∧
    counterValue (newLoadBalancerCollectorCounter []) "loadbalancer" = some 0 ∧
    counterValue (newRedisCollectorCounter []) "redis" = some 0 ∧
    counterValue (newBillingCollectorCounter []) "billing" = none ∧
    counterValue (newBillingCollectorCounter []) "bucket" = some 0 := by
  refine ⟨rfl, rfl, rfl, rfl, rfl, rfl, rfl, rfl, rfl, rfl, rfl, rfl, rfl, rfl, rfl⟩

/-! ## Claim C5: error-counter attribution -/

/-- Environment for the C5 counterexample: the load balancer metric endpoint
answers with one known series carrying zero points. -/
def c5Env : LbEnv :=
  ⟨fun _ => .ok [], fun _ _ => .ok [⟨"current_connection_rate_sec", [], []⟩]⟩

def c5Lb : LbInstance := ⟨"lb-1", "my-lb", "fr-par-1", "LB-S", .ready⟩

/-- Claim C5 counterexample: an empty-series failure inside the LOAD BALANCER
collector increments the counter labeled "database", the label of another
family — the claim that no failure increments the counter of a different
family is false. -/
theorem claim_C5_counterexample :
    (fetchLoadbalancerMetrics c5Env c5Lb).errorIncs = [("database", 1)] ∧
      ¬("database" = "loadbalancer") := by
  exact ⟨rfl, by decide⟩

/-- Claim C5 (amended): every recoverable failure appends exactly one
counter-increment event, with amount 1 and the own family label of the
collector,
EXCEPT three paths written otherwise in the source: the load balancer
empty-series path increments the label "database", the redis inventory-fetch
failure increments the label "clusters", and a bucket multi-metric
(storage-usage) fetch failure adds `len(DescMatrix)` = 2 in a single event.
The conjuncts below enumerate every failure path of the embedded collectors
with the exact increment it produces. -/
theorem claim_C5 :
    (∀ (env : DbEnv) (r : String) (rest : List String) (e : ScwError),
      env.listInstances r = .error e →
      (dbCollect env (r :: rest)).errorIncs = [("database", 1)]) ∧
    (∀ (env : DbEnv) (inst : DbInstance) (e : ScwError),
      env.getInstanceMetrics inst.region inst.id = .error e →
      (fetchMetricsForInstance env inst).errorIncs = [("database", 1)]) ∧
    (∀ (inst : DbInstance) (ts : TimeSeries) (d : Desc),
      dbSeriesDesc ts.name = some d → ts.points = [] →
      (dbHandleSeries inst ts).errorIncs = [("database", 1)]) ∧
    (∀ (env : LbEnv) (z : String) (rest : List String) (e : ScwError),
      env.listLBs z = .error e → isNotImplementedErr e = false →
      (lbCollect env (z :: rest)).errorIncs = [("loadbalancer", 1)]) ∧
    (∀ (env : LbEnv) (l : LbInstance) (e : ScwError),
      env.getLbMetrics l.zone l.id = .error e →
      (fetchLoadbalancerMetrics env l).errorIncs = [("loadbalancer", 1)]) ∧
    (∀ (l : LbInstance) (ts : TimeSeries) (d : Desc),
      lbSeriesCaseOf ts.name = .mapped d → ts.points = [] →
      (lbHandleSeries l ts).errorIncs = [("database", 1)]) ∧
    (∀ (env : RedisEnv) (z : String) (rest : List String) (e : ScwError),
      env.listClusters z = .error e → isNotImplementedErr e = false →
      (redisCollect env (z :: rest)).errorIncs = [("clusters", 1)]) ∧
    (∀ (env : RedisEnv) (z : String) (cl : RedisCluster) (e : ScwError),
      env.getClusterMetrics z cl.id = .error e →
      (fetchRedisMetrics env z cl).errorIncs = [("redis", 1)]) ∧
    (∀ (cl : RedisCluster) (ts : TimeSeries) (d : Desc),
      redisSeriesDesc ts.name = some d → ts.points = [] →
      (redisHandleSeries cl ts).errorIncs = [("redis", 1)]) ∧
    (∀ (env : BucketEnv) (b : String) (mn : BucketMetricName) (d : Desc)
      (ls : List String) (e : ScwError),
      env.fetchMetric b mn = .error e →
      handleSimpleMetric env b mn d ls =
        .ok ⟨[], [("bucket", 1)], [⟨.warnL, "cannot fetch the metric for the bucket"⟩]⟩) ∧
    (∀ (env : BucketEnv) (b : String) (mn : BucketMetricName) (ls : List String)
      (e : ScwError),
      env.fetchMetric b mn = .error e →
      handleMultiMetrics env b mn storageDescMatrix ls =
        .ok ⟨[], [("bucket", 2)], [⟨.warnL, "cannot fetch the metric for the bucket"⟩]⟩) := by
  refine ⟨?_, ?_, ?_, ?_, ?_, ?_, ?_, ?_, ?_, ?_, ?_⟩
  · intro env r rest e h
    simp [dbCollect, h]
  · intro env inst e h
    simp [fetchMetricsForInstance, h, ScrapeOutput.append]
  · intro inst ts d h hpts
    simp [dbHandleSeries, h, hpts]
  · intro env z rest e h hni
    simp [lbCollect, h, hni]
  · intro env l e h
    simp [fetchLoadbalancerMetrics, h, ScrapeOutput.append]
  · intro l ts d h hpts
    simp [lbHandleSeries, h, hpts]
  · intro env z rest e h hni
    simp [redisCollect, h, hni]
  · intro env z cl e h
    simp [fetchRedisMetrics, h]
  · intro cl ts d h hpts
    simp [redisHandleSeries, h, hpts]
  · intro env b mn d ls e h
    simp [handleSimpleMetric, h]
  · intro env b mn ls e h
    simp [handleMultiMetrics, h, storageDescMatrix]

/-- Witness for C5: each failure path of the amended claim evaluated at a
concrete input. -/
theorem claim_C5_witness :
    (dbCollect ⟨fun _ => .error (.transportError "x"), fun _ _ => .ok []⟩
        ["fr-par"]).errorIncs = [("database", 1)] ∧
    (fetchMetricsForInstance ⟨fun _ => .ok [], fun _ _ => .error (.transportError "x")⟩
        c3DbInst).errorIncs = [("database", 1)] ∧
    (dbHandleSeries c3DbInst ⟨"cpu_usage_percent", [], []⟩).errorIncs = [("database", 1)] ∧
    (lbCollect ⟨fun _ => .error (.transportError "x"), fun _ _ => .ok []⟩
        ["fr-par-1"]).errorIncs = [("loadbalancer", 1)] ∧
    (fetchLoadbalancerMetrics ⟨fun _ => .ok [], fun _ _ => .error (.transportError "x")⟩
        c5Lb).errorIncs = [("loadbalancer", 1)] ∧
    (lbHandleSeries c5Lb ⟨"current_connection_rate_sec", [], []⟩).errorIncs = [("database", 1)] ∧
    (redisCollect ⟨fun _ => .error (.transportError "x"), fun _ _ => .ok []⟩
        ["fr-par-1"]).errorIncs = [("clusters", 1)] ∧
    (fetchRedisMetrics ⟨fun _ => .ok [], fun _ _ => .error (.transportError "x")⟩
        "fr-par-1" ⟨"cl-1", "c", .ready⟩).errorIncs = [("redis", 1)] ∧
    (redisHandleSeries ⟨"cl-1", "c", .ready⟩ ⟨"cpu_usage_percent", [], []⟩).errorIncs =
      [("redis", 1)] ∧
    handleSimpleMetric ⟨"fr-par", fun _ _ => .error (.transportError "x")⟩ "b" .objectCount
        objectCountDesc ["b", "fr-par", "false"] =
      .ok ⟨[], [("bucket", 1)], [⟨.warnL, "cannot fetch the metric for the bucket"⟩]⟩ ∧
    handleMultiMetrics ⟨"fr-par", fun _ _ => .error (.transportError "x")⟩ "b" .storageUsage
        storageDescMatrix ["b", "fr-par", "false"] =
      .ok ⟨[], [("bucket", 2)], [⟨.warnL, "cannot fetch the metric for the bucket"⟩]⟩ := by
  refine ⟨claim_C5.1 _ _ _ _ rfl, claim_C5.2.1 _ _ _ rfl, claim_C5.2.2.1 _ _ _ rfl rfl,
    claim_C5.2.2.2.1 _ _ _ _ rfl rfl, claim_C5.2.2.2.2.1 _ _ _ rfl,
    claim_C5.2.2.2.2.2.1 _ _ _ rfl rfl, claim_C5.2.2.2.2.2.2.1 _ _ _ _ rfl rfl,
    claim_C5.2.2.2.2.2.2.2.1 _ _ _ _ rfl,
    claim_C5.2.2.2.2.2.2.2.2.1 _ _ _ rfl rfl,
    claim_C5.2.2.2.2.2.2.2.2.2.1 _ _ _ _ _ _ rfl,
    claim_C5.2.2.2.2.2.2.2.2.2.2 _ _ _ _ _ rfl⟩

/-! ## Claim C1: hard inventory failure and other partitions -/

def c1InstB : DbInstance :=
  ⟨"22222222-aaaa-bbbb-cccc-000000000001", "db-b", "nl-ams", "PostgreSQL-14",
    "db-dev-s", .ready⟩

def c1ListInstances : String → Except ScwError (List (List DbInstance))
  | "fr-par" => .error (.transportError "connection refused")
  | _ => .ok [[c1InstB]]

/-- Environment for C1: the inventory fetch hard-fails for region fr-par and
succeeds for region nl-ams. -/
def c1Env : DbEnv := ⟨c1ListInstances, fun _ _ => .ok []⟩

/-- Claim C1 counterexample: with regions [fr-par, nl-ams], the hard inventory
failure on fr-par makes `Collect` return immediately (the error is counted and
warn-logged), so nl-ams — which on its own would emit the up observation of
its one instance — contributes nothing: the failing partition does NOT leave
the other partitions in the list unaffected. -/
theorem claim_C1_counterexample :
    (dbCollect c1Env ["fr-par", "nl-ams"]).metrics = [] ∧
      (dbCollect c1Env ["fr-par", "nl-ams"]).errorIncs = [("database", 1)] ∧
      (dbCollect c1Env ["nl-ams"]).metrics = [dbUpObservation c1InstB] := by
  refine ⟨by decide, by decide, by decide⟩

theorem dbCollect_ok_cons (env : DbEnv) (r : String) (rest : List String)
    (pages : List (List DbInstance)) (h : env.listInstances r = .ok pages) :
    dbCollect env (r :: rest) =
      ((⟨[], [], [⟨.debugL, "found database instances"⟩]⟩ : ScrapeOutput).append
        (joinOutputs ((scwList pages true).map (fetchMetricsForInstance env)))).append
        (dbCollect env rest) := by
  simp [dbCollect, h]

theorem redisCollect_ok_cons (env : RedisEnv) (z : String) (rest : List String)
    (pages : List (List RedisCluster)) (h : env.listClusters z = .ok pages) :
    redisCollect env (z :: rest) =
      (joinOutputs ((scwList pages false).map (fetchRedisMetrics env z))).append
        (redisCollect env rest) := by
  simp [redisCollect, h]

/-- Claim C1 (amended): when the inventory fetch hard-fails for partition A,
the failure increments the error counter once and is warn-logged, but
`Collect` executes `return`, so only the partitions BEFORE A in the configured
order have been processed (their observations are emitted unaffected) and
every partition after A is abandoned for that scrape.  Shown for the database
collector and for the redis collector (whose increment carries the label
"clusters"). -/
theorem claim_C1 :
    (∀ (env : DbEnv) (pre : List String) (a : String) (post : List String),
      (∀ r ∈ pre, ∃ pages, env.listInstances r = .ok pages) →
      (∃ e, env.listInstances a = .error e) →
      dbCollect env (pre ++ a :: post) =
        (dbCollect env pre).append
          ⟨[], [("database", 1)], [⟨.warnL, "cannot fetch the list of databases"⟩]⟩) ∧
    (∀ (env : RedisEnv) (pre : List String) (a : String) (post : List String),
      (∀ z ∈ pre, ∃ pages, env.listClusters z = .ok pages) →
      (∃ e, env.listClusters a = .error e ∧ isNotImplementedErr e = false) →
      redisCollect env (pre ++ a :: post) =
        (redisCollect env pre).append
          ⟨[], [("clusters", 1)], [⟨.warnL, "cannot fetch the list of clusters"⟩]⟩) := by
  constructor
  · intro env pre a post hpre ha
    induction pre with
    | nil =>
      obtain ⟨e, he⟩ := ha
      simp [dbCollect, he, ScrapeOutput.empty_append]
    | cons r pre ih =>
      obtain ⟨pages, hr⟩ := hpre r (List.mem_cons_self r pre)
      have hrest : ∀ x ∈ pre, ∃ pages, env.listInstances x = .ok pages :=
        fun x hx => hpre x (List.mem_cons_of_mem r hx)
      rw [List.cons_append, dbCollect_ok_cons env r (pre ++ a :: post) pages hr,
        ih hrest, ← ScrapeOutput.append_assoc, ← dbCollect_ok_cons env r pre pages hr]
  · intro env pre a post hpre ha
    induction pre with
    | nil =>
      obtain ⟨e, he, hni⟩ := ha
      simp [redisCollect, he, hni, ScrapeOutput.empty_append]
    | cons z pre ih =>
      obtain ⟨pages, hz⟩ := hpre z (List.mem_cons_self z pre)
      have hrest : ∀ x ∈ pre, ∃ pages, env.listClusters x = .ok pages :=
        fun x hx => hpre x (List.mem_cons_of_mem z hx)
      rw [List.cons_append, redisCollect_ok_cons env z (pre ++ a :: post) pages hz,
        ih hrest, ← ScrapeOutput.append_assoc, ← redisCollect_ok_cons env z pre pages hz]

def c1RedisList : String → Except ScwError (List (List RedisCluster))
  | "fr-par-1" => .error (.transportError "connection refused")
  | _ => .ok [[⟨"cl-1", "cache-1", .ready⟩]]

def c1RedisEnv : RedisEnv := ⟨c1RedisList, fun _ _ => .ok []⟩

/-- Witness for C1: concrete runs with one succeeding partition before the
failing one and one abandoned partition after it. -/
theorem claim_C1_witness :
    dbCollect c1Env ["nl-ams", "fr-par", "pl-waw"] =
      (dbCollect c1Env ["nl-ams"]).append
        ⟨[], [("database", 1)], [⟨.warnL, "cannot fetch the list of databases"⟩]⟩ ∧
    redisCollect c1RedisEnv ["nl-ams-1", "fr-par-1", "pl-waw-1"] =
      (redisCollect c1RedisEnv ["nl-ams-1"]).append
        ⟨[], [("clusters", 1)], [⟨.warnL, "cannot fetch the list of clusters"⟩]⟩ := by
  constructor
  · exact claim_C1.1 c1Env ["nl-ams"] "fr-par" ["pl-waw"]
      (by
        intro r hr
        simp at hr
        subst hr
        exact ⟨[[c1InstB]], rfl⟩)
      ⟨.transportError "connection refused", rfl⟩
  · exact claim_C1.2 c1RedisEnv ["nl-ams-1"] "fr-par-1" ["pl-waw-1"]
      (by
        intro z hz
        simp at hz
        subst hz
        exact ⟨[[⟨"cl-1", "cache-1", .ready⟩]], rfl⟩)
      ⟨.transportError "connection refused", rfl, rfl⟩

/-! ## Claim C4: the "not implemented" partition case -/

def c4LbB : LbInstance := ⟨"lb-b", "lb-b-name", "fr-par-2", "LB-S", .ready⟩

def c4ListLBs : String → Except ScwError (List (List LbInstance))
  | "fr-par-1" => .error (.responseError 501)
  | _ => .ok [[c4LbB]]

/-- Environment for C4: zone fr-par-1 answers 501 Not Implemented, zone
fr-par-2 has one load balancer. -/
def c4Env : LbEnv := ⟨c4ListLBs, fun _ _ => .ok []⟩

/-- Claim C4 counterexample: the 501 on fr-par-1 is debug-logged with no
counter increment, as claimed — but `Collect` executes `return` instead of
`continue`, so fr-par-2 (which on its own would emit its up observation) is
NOT processed: the collector does not continue with the remaining partitions. -/
theorem claim_C4_counterexample :
    lbCollect c4Env ["fr-par-1", "fr-par-2"] =
      ⟨[], [], [⟨.debugL, "Loadbalancer is not supported in this zone"⟩]⟩ ∧
      (lbCollect c4Env ["fr-par-2"]).metrics = [lbUpObservation c4LbB] := by
  refine ⟨by decide, by decide⟩

theorem lbCollect_ok_cons (env : LbEnv) (z : String) (rest : List String)
    (pages : List (List LbInstance)) (h : env.listLBs z = .ok pages) :
    lbCollect env (z :: rest) =
      ((⟨[], [], [⟨.debugL, "found loadbalancer instances"⟩]⟩ : ScrapeOutput).append
        (joinOutputs ((scwList pages true).map (fetchLoadbalancerMetrics env)))).append
        (lbCollect env rest) := by
  simp [lbCollect, h]

/-- Claim C4 (amended): in the load balancer and redis collectors a
distinguishable 501 "not implemented" inventory response is debug-logged only
(no error-counter increment), but `Collect` executes `return`, so the
partitions BEFORE the unsupported one are processed and emitted unaffected
while every partition AFTER it in the list is skipped for that scrape (the
claimed behaviour "continues processing all remaining partitions" does not
hold). -/
theorem claim_C4 :
    (∀ (env : LbEnv) (pre : List String) (a : String) (post : List String),
      (∀ z ∈ pre, ∃ pages, env.listLBs z = .ok pages) →
      (∃ e, env.listLBs a = .error e ∧ isNotImplementedErr e = true) →
      lbCollect env (pre ++ a :: post) =
        (lbCollect env pre).append
          ⟨[], [], [⟨.debugL, "Loadbalancer is not supported in this zone"⟩]⟩) ∧
    (∀ (env : RedisEnv) (pre : List String) (a : String) (post : List String),
      (∀ z ∈ pre, ∃ pages, env.listClusters z = .ok pages) →
      (∃ e, env.listClusters a = .error e ∧ isNotImplementedErr e = true) →
      redisCollect env (pre ++ a :: post) =
        (redisCollect env pre).append
          ⟨[], [], [⟨.debugL, "Loadbalancer is not supported in this zone"⟩]⟩) := by
  constructor
  · intro env pre a post hpre ha
    induction pre with
    | nil =>
      obtain ⟨e, he, hni⟩ := ha
      simp [lbCollect, he, hni, ScrapeOutput.empty_append]
    | cons z pre ih =>
      obtain ⟨pages, hz⟩ := hpre z (List.mem_cons_self z pre)
      have hrest : ∀ x ∈ pre, ∃ pages, env.listLBs x = .ok pages :=
        fun x hx => hpre x (List.mem_cons_of_mem z hx)
      rw [List.cons_append, lbCollect_ok_cons env z (pre ++ a :: post) pages hz,
        ih hrest, ← ScrapeOutput.append_assoc, ← lbCollect_ok_cons env z pre pages hz]
  · intro env pre a post hpre ha
    induction pre with
    | nil =>
      obtain ⟨e, he, hni⟩ := ha
      simp [redisCollect, he, hni, ScrapeOutput.empty_append]
    | cons z pre ih =>
      obtain ⟨pages, hz⟩ := hpre z (List.mem_cons_self z pre)
      have hrest : ∀ x ∈ pre, ∃ pages, env.listClusters x = .ok pages :=
        fun x hx => hpre x (List.mem_cons_of_mem z hx)
      rw [List.cons_append, redisCollect_ok_cons env z (pre ++ a :: post) pages hz,
        ih hrest, ← ScrapeOutput.append_assoc, ← redisCollect_ok_cons env z pre pages hz]

def c4RedisList : String → Except ScwError (List (List RedisCluster))
  | "fr-par-1" => .error (.responseError 501)
  | _ => .ok [[⟨"cl-4", "cache-4", .ready⟩]]

def c4RedisEnv : RedisEnv := ⟨c4RedisList, fun _ _ => .ok []⟩

/-- Witness for C4: concrete runs with one processed partition before the
unsupported one and one abandoned partition after it. -/
theorem claim_C4_witness :
    lbCollect c4Env ["fr-par-2", "fr-par-1", "nl-ams-1"] =
      (lbCollect c4Env ["fr-par-2"]).append
        ⟨[], [], [⟨.debugL, "Loadbalancer is not supported in this zone"⟩]⟩ ∧
    redisCollect c4RedisEnv ["fr-par-2", "fr-par-1", "nl-ams-1"] =
      (redisCollect c4RedisEnv ["fr-par-2"]).append
        ⟨[], [], [⟨.debugL, "Loadbalancer is not supported in this zone"⟩]⟩ := by
  constructor
  · exact claim_C4.1 c4Env ["fr-par-2"] "fr-par-1" ["nl-ams-1"]
      (by
        intro z hz
        simp at hz
        subst hz
        exact ⟨[[c4LbB]], rfl⟩)
      ⟨.responseError 501, rfl, rfl⟩
  · exact claim_C4.2 c4RedisEnv ["fr-par-2"] "fr-par-1" ["nl-ams-1"]
      (by
        intro z hz
        simp at hz
        subst hz
        exact ⟨[[⟨"cl-4", "cache-4", .ready⟩]], rfl⟩)
      ⟨.responseError 501, rfl, rfl⟩

/-! ## Claim C7: pagination of the inventory fetch -/

def c7C1 : RedisCluster := ⟨"cl-1", "cache-1", .ready⟩

def c7C2 : RedisCluster := ⟨"cl-2", "cache-2", .ready⟩

/-- Environment for C7: the cluster inventory has two pages of one cluster
each; every metric fetch fails (so each processed cluster leaves exactly one
"redis" increment as a trace). -/
def c7Env : RedisEnv :=
  ⟨fun _ => .ok [[c7C1], [c7C2]], fun _ _ => .error (.transportError "boom")⟩

/-- Claim C7 counterexample: the redis `ListClusters` call is issued WITHOUT
`scw.WithAllPages()`, so only the first page is consumed.  With two clusters
spread over two pages and metric fetches that fail for every cluster, a full
inventory would leave two "redis" increments; the run leaves exactly one —
the second page is silently truncated, the caller gets a partial page with no
failure. -/
theorem claim_C7_counterexample :
    c7Env.listClusters "fr-par-1" = .ok [[c7C1], [c7C2]] ∧
      ([[c7C1], [c7C2]] : List (List RedisCluster)).flatten = [c7C1, c7C2] ∧
      (redisCollect c7Env ["fr-par-1"]).errorIncs = [("redis", 1)] := by
  refine ⟨rfl, rfl, by decide⟩

theorem fetchMetricsForInstance_mem_up (env : DbEnv) (inst : DbInstance) :
    dbUpObservation inst ∈ (fetchMetricsForInstance env inst).metrics := by
  unfold fetchMetricsForInstance
  cases env.getInstanceMetrics inst.region inst.id <;> simp [ScrapeOutput.append]

theorem fetchLoadbalancerMetrics_mem_up (env : LbEnv) (l : LbInstance) :
    lbUpObservation l ∈ (fetchLoadbalancerMetrics env l).metrics := by
  unfold fetchLoadbalancerMetrics
  cases env.getLbMetrics l.zone l.id <;> simp [ScrapeOutput.append]

/-- Claim C7 (amended): the database and load balancer inventory calls pass
`scw.WithAllPages()` and consume the complete multi-page result set — every
resource on any page of a successful listing is processed (witnessed by its
emitted up observation); the redis `ListClusters` call passes no pagination
option and consumes only the FIRST page: its collector run is
indistinguishable from one against an inventory truncated to the first page. -/
theorem claim_C7 :
    (∀ (env : DbEnv) (r : String) (pages : List (List DbInstance)) (inst : DbInstance),
      env.listInstances r = .ok pages → inst ∈ pages.flatten →
      dbUpObservation inst ∈ (dbCollect env [r]).metrics) ∧
    (∀ (env : LbEnv) (z : String) (pages : List (List LbInstance)) (l : LbInstance),
      env.listLBs z = .ok pages → l ∈ pages.flatten →
      lbUpObservation l ∈ (lbCollect env [z]).metrics) ∧
    (∀ (env env2 : RedisEnv) (z : String) (pages : List (List RedisCluster)),
      env.listClusters z = .ok pages →
      env2.listClusters z = .ok [pages.headD []] →
      (∀ zz cid, env.getClusterMetrics zz cid = env2.getClusterMetrics zz cid) →
      redisCollect env [z] = redisCollect env2 [z]) := by
  refine ⟨?_, ?_, ?_⟩
  · intro env r pages inst hok hmem
    rw [dbCollect_ok_cons env r [] pages hok]
    simp only [ScrapeOutput.append, List.mem_append, scwList, if_pos, dbCollect]
    refine Or.inl (Or.inr (mem_joinOutputs.mpr ?_))
    exact ⟨fetchMetricsForInstance env inst,
      List.mem_map_of_mem _ (by simpa [scwList] using hmem),
      fetchMetricsForInstance_mem_up env inst⟩
  · intro env z pages l hok hmem
    rw [lbCollect_ok_cons env z [] pages hok]
    simp only [ScrapeOutput.append, List.mem_append]
    refine Or.inl (Or.inr (mem_joinOutputs.mpr ?_))
    exact ⟨fetchLoadbalancerMetrics env l,
      List.mem_map_of_mem _ (by simpa [scwList] using hmem),
      fetchLoadbalancerMetrics_mem_up env l⟩
  · intro env env2 z pages h1 h2 hm
    have hfetch : fetchRedisMetrics env z = fetchRedisMetrics env2 z := by
      funext cl
      unfold fetchRedisMetrics
      rw [hm]
    rw [redisCollect_ok_cons env z [] pages h1,
      redisCollect_ok_cons env2 z [] [pages.headD []] h2, hfetch]
    simp [scwList, redisCollect]

def c7Env2 : RedisEnv :=
  ⟨fun _ => .ok [[c7C1]], fun _ _ => .error (.transportError "boom")⟩

/-- Witness for C7: concrete instances of all three conjuncts (an instance on
the second database page is still emitted; a load balancer on the second page
is still emitted; the two-page redis run equals the first-page-only run). -/
theorem claim_C7_witness :
    dbUpObservation c1InstB ∈ (dbCollect c1Env ["nl-ams"]).metrics ∧
      lbUpObservation c4LbB ∈ (lbCollect c4Env ["fr-par-2"]).metrics ∧
      redisCollect c7Env ["fr-par-1"] = redisCollect c7Env2 ["fr-par-1"] := by
  refine ⟨claim_C7.1 c1Env "nl-ams" [[c1InstB]] c1InstB rfl (by decide),
    claim_C7.2.1 c4Env "fr-par-2" [[c4LbB]] c4LbB rfl (by decide),
    claim_C7.2.2 c7Env c7Env2 "fr-par-1" [[c7C1], [c7C2]] rfl rfl (fun _ _ => rfl)⟩

/-! ## Claim C8: the up gauge is emitted before the metric fetch -/

def c8Cluster : RedisCluster := ⟨"cl-x", "cache-x", .ready⟩

/-- Environment for C8: the redis metric fetch fails. -/
def c8Env : RedisEnv :=
  ⟨fun _ => .ok [[c8Cluster]], fun _ _ => .error (.transportError "boom")⟩

/-- Claim C8 counterexample: the redis cluster carries a status enum on the
Resource (known independently of the metrics API), yet the redis collector
declares no up descriptor and `FetchRedisMetrics` emits nothing before (or
after) a failed metric fetch — zero observations instead of the claimed
exactly one synthetic up observation upon discovery. -/
theorem claim_C8_counterexample :
    c8Cluster.status = RedisStatus.ready ∧
      (fetchRedisMetrics c8Env "fr-par-1" c8Cluster).metrics = [] := by
  exact ⟨rfl, rfl⟩

/-- Claim C8 (amended): the database and load balancer collectors emit the up
observation first, before the per-resource metric fetch is attempted (it is
the head of the per-resource output for every environment), and a
metric-fetch failure leaves that sole observation emitted; the redis
collector, although its clusters carry a status enum, emits no liveness
observation at all (and nothing on a failed metric fetch). -/
theorem claim_C8 :
    (∀ (env : DbEnv) (inst : DbInstance),
      (fetchMetricsForInstance env inst).metrics.head? = some (dbUpObservation inst)) ∧
    (∀ (env : DbEnv) (inst : DbInstance) (e : ScwError),
      env.getInstanceMetrics inst.region inst.id = .error e →
      (fetchMetricsForInstance env inst).metrics = [dbUpObservation inst]) ∧
    (∀ (env : LbEnv) (l : LbInstance),
      (fetchLoadbalancerMetrics env l).metrics.head? = some (lbUpObservation l)) ∧
    (∀ (env : LbEnv) (l : LbInstance) (e : ScwError),
      env.getLbMetrics l.zone l.id = .error e →
      (fetchLoadbalancerMetrics env l).metrics = [lbUpObservation l]) ∧
    (∀ (env : RedisEnv) (z : String) (cl : RedisCluster) (e : ScwError),
      env.getClusterMetrics z cl.id = .error e →
      (fetchRedisMetrics env z cl).metrics = []) := by
  refine ⟨?_, ?_, ?_, ?_, ?_⟩
  · intro env inst
    unfold fetchMetricsForInstance
    cases env.getInstanceMetrics inst.region inst.id <;> simp [ScrapeOutput.append]
  · intro env inst e h
    simp [fetchMetricsForInstance, h, ScrapeOutput.append]
  · intro env l
    unfold fetchLoadbalancerMetrics
    cases env.getLbMetrics l.zone l.id <;> simp [ScrapeOutput.append]
  · intro env l e h
    simp [fetchLoadbalancerMetrics, h, ScrapeOutput.append]
  · intro env z cl e h
    simp [fetchRedisMetrics, h]

def c8DbEnv : DbEnv := ⟨fun _ => .ok [], fun _ _ => .error (.transportError "boom")⟩

def c8LbEnv : LbEnv := ⟨fun _ => .ok [], fun _ _ => .error (.transportError "boom")⟩

/-- Witness for C8: concrete failed metric fetches still leave the lone up
observation for database and load balancer, and nothing for redis. -/
theorem claim_C8_witness :
    (fetchMetricsForInstance c8DbEnv c3DbInst).metrics.head? =
        some (dbUpObservation c3DbInst) ∧
      (fetchMetricsForInstance c8DbEnv c3DbInst).metrics = [dbUpObservation c3DbInst] ∧
      (fetchLoadbalancerMetrics c8LbEnv c5Lb).metrics.head? = some (lbUpObservation c5Lb) ∧
      (fetchLoadbalancerMetrics c8LbEnv c5Lb).metrics = [lbUpObservation c5Lb] ∧
      (fetchRedisMetrics c8Env "fr-par-1" c8Cluster).metrics = [] := by
  refine ⟨claim_C8.1 c8DbEnv c3DbInst,
    claim_C8.2.1 c8DbEnv c3DbInst (.transportError "boom") rfl,
    claim_C8.2.2.1 c8LbEnv c5Lb,
    claim_C8.2.2.2.1 c8LbEnv c5Lb (.transportError "boom") rfl,
    claim_C8.2.2.2.2 c8Env "fr-par-1" c8Cluster (.transportError "boom") rfl⟩

/-! ## Claim C9: label lists match the descriptor schema -/

/-- The invariant `MustNewConstMetric` enforces by panicking: the supplied
label values have exactly the length of the label schema the descriptor was
declared with. -/
def labelsOk (o : Observation) : Prop :=
  o.labelValues.length = o.desc.variableLabels.length

theorem dbSeriesDesc_labels (n : String) (d : Desc) (h : dbSeriesDesc n = some d) :
    d.variableLabels = dbLabelsNode := by
  unfold dbSeriesDesc at h
  split at h <;>
      simp_all [dbCPUsDesc, dbMemoryDesc, dbConnectionDesc, dbDiskDesc] <;>
    rw [← h]

theorem dbHandleSeries_labels (inst : DbInstance) (ts : TimeSeries) (o : Observation)
    (h : o ∈ (dbHandleSeries inst ts).metrics) : labelsOk o := by
  unfold dbHandleSeries at h
  cases hdesc : dbSeriesDesc ts.name with
  | none => simp [hdesc] at h
  | some d =>
    rw [hdesc] at h
    by_cases hpts : ts.points.isEmpty <;> simp [hpts] at h
    subst h
    simp [labelsOk, dbSeriesDesc_labels ts.name d hdesc, dbLabelsNode]

theorem fetchMetricsForInstance_labels (env : DbEnv) (inst : DbInstance)
    (o : Observation) (h : o ∈ (fetchMetricsForInstance env inst).metrics) :
    labelsOk o := by
  have hup : labelsOk (dbUpObservation inst) := by
    simp [labelsOk, dbUpObservation, dbInstanceLabels, dbUpDesc, dbLabels]
  unfold fetchMetricsForInstance at h
  cases henv : env.getInstanceMetrics inst.region inst.id with
  | error e =>
    rw [henv] at h
    simp [ScrapeOutput.append] at h
    subst h
    exact hup
  | ok series =>
    rw [henv] at h
    simp only [ScrapeOutput.append, List.mem_append] at h
    rcases h with h | h
    · simp at h
      subst h
      exact hup
    · rcases mem_joinOutputs.mp h with ⟨x, hx, ho⟩
      rcases List.mem_map.mp hx with ⟨ts, _, rfl⟩
      exact dbHandleSeries_labels inst ts o ho

theorem dbCollect_labels (env : DbEnv) (regions : List String) (o : Observation)
    (h : o ∈ (dbCollect env regions).metrics) : labelsOk o := by
  induction regions with
  | nil => simp [dbCollect, ScrapeOutput.empty] at h
  | cons r rest ih =>
    cases hr : env.listInstances r with
    | error e => simp [dbCollect, hr] at h
    | ok pages =>
      rw [dbCollect_ok_cons env r rest pages hr] at h
      simp only [ScrapeOutput.append, List.mem_append] at h
      rcases h with (h | h) | h
      · simp at h
      · rcases mem_joinOutputs.mp h with ⟨x, hx, ho⟩
        rcases List.mem_map.mp hx with ⟨inst, _, rfl⟩
        exact fetchMetricsForInstance_labels env inst o ho
      · exact ih h

theorem lbSeriesCase_labels (n : String) (d : Desc) (h : lbSeriesCaseOf n = .mapped d) :
    d.variableLabels = lbLabels := by
  unfold lbSeriesCaseOf at h
  split at h <;>
      simp_all [lbNetworkReceiveDesc, lbNetworkTransmitDesc, lbConnectionDesc,
        lbNewConnectionDesc] <;>
    rw [← h]

theorem lbHandleSeries_labels (l : LbInstance) (ts : TimeSeries) (o : Observation)
    (h : o ∈ (lbHandleSeries l ts).metrics) : labelsOk o := by
  unfold lbHandleSeries at h
  cases hcase : lbSeriesCaseOf ts.name with
  | serverStatus => simp [hcase, ScrapeOutput.empty] at h
  | unmapped => simp [hcase] at h
  | mapped d =>
    rw [hcase] at h
    by_cases hpts : ts.points.isEmpty <;> simp [hpts] at h
    subst h
    simp [labelsOk, lbSeriesCase_labels ts.name d hcase, lbLabels, lbInstanceLabels]

theorem fetchLoadbalancerMetrics_labels (env : LbEnv) (l : LbInstance)
    (o : Observation) (h : o ∈ (fetchLoadbalancerMetrics env l).metrics) :
    labelsOk o := by
  have hup : labelsOk (lbUpObservation l) := by
    simp [labelsOk, lbUpObservation, lbInstanceLabels, lbUpDesc, lbLabels]
  unfold fetchLoadbalancerMetrics at h
  cases henv : env.getLbMetrics l.zone l.id with
  | error e =>
    rw [henv] at h
    simp [ScrapeOutput.append] at h
    subst h
    exact hup
  | ok series =>
    rw [henv] at h
    simp only [ScrapeOutput.append, List.mem_append] at h
    rcases h with h | h
    · simp at h
      subst h
      exact hup
    · rcases mem_joinOutputs.mp h with ⟨x, hx, ho⟩
      rcases List.mem_map.mp hx with ⟨ts, _, rfl⟩
      exact lbHandleSeries_labels l ts o ho

theorem lbCollect_labels (env : LbEnv) (zones : List String) (o : Observation)
    (h : o ∈ (lbCollect env zones).metrics) : labelsOk o := by
  induction zones with
  | nil => simp [lbCollect, ScrapeOutput.empty] at h
  | cons z rest ih =>
    cases hz : env.listLBs z with
    | error e =>
      by_cases hni : isNotImplementedErr e <;> simp [lbCollect, hz, hni] at h
    | ok pages =>
      rw [lbCollect_ok_cons env z rest pages hz] at h
      simp only [ScrapeOutput.append, List.mem_append] at h
      rcases h with (h | h) | h
      · simp at h
      · rcases mem_joinOutputs.mp h with ⟨x, hx, ho⟩
        rcases List.mem_map.mp hx with ⟨l, _, rfl⟩
        exact fetchLoadbalancerMetrics_labels env l o ho
      · exact ih h

theorem redisSeriesDesc_labels (n : String) (d : Desc) (h : redisSeriesDesc n = some d) :
    d.variableLabels = redisLabels := by
  unfold redisSeriesDesc at h
  split at h <;> simp_all [redisCPUDesc, redisMemDesc, redisDbMemDesc] <;> rw [← h]

theorem redisHandleSeries_labels (cl : RedisCluster) (ts : TimeSeries) (o : Observation)
    (h : o ∈ (redisHandleSeries cl ts).metrics) : labelsOk o := by
  unfold redisHandleSeries at h
  cases hdesc : redisSeriesDesc ts.name with
  | none => simp [hdesc] at h
  | some d =>
    rw [hdesc] at h
    by_cases hpts : ts.points.isEmpty <;> simp [hpts] at h
    subst h
    simp [labelsOk, redisSeriesDesc_labels ts.name d hdesc, redisLabels]

theorem fetchRedisMetrics_labels (env : RedisEnv) (z : String) (cl : RedisCluster)
    (o : Observation) (h : o ∈ (fetchRedisMetrics env z cl).metrics) : labelsOk o := by
  unfold fetchRedisMetrics at h
  cases henv : env.getClusterMetrics z cl.id with
  | error e =>
    rw [henv] at h
    simp at h
  | ok series =>
    rw [henv] at h
    rcases mem_joinOutputs.mp h with ⟨x, hx, ho⟩
    rcases List.mem_map.mp hx with ⟨ts, _, rfl⟩
    exact redisHandleSeries_labels cl ts o ho

theorem redisCollect_labels (env : RedisEnv) (zones : List String) (o : Observation)
    (h : o ∈ (redisCollect env zones).metrics) : labelsOk o := by
  induction zones with
  | nil => simp [redisCollect, ScrapeOutput.empty] at h
  | cons z rest ih =>
    cases hz : env.listClusters z with
    | error e =>
      by_cases hni : isNotImplementedErr e <;> simp [redisCollect, hz, hni] at h
    | ok pages =>
      rw [redisCollect_ok_cons env z rest pages hz] at h
      simp only [ScrapeOutput.append, List.mem_append] at h
      rcases h with h | h
      · rcases mem_joinOutputs.mp h with ⟨x, hx, ho⟩
        rcases List.mem_map.mp hx with ⟨cl, _, rfl⟩
        exact fetchRedisMetrics_labels env z cl o ho
      · exact ih h

theorem bucketSimpleSeriesLoop_labels (d : Desc) (ls : List String) :
    ∀ (series : List TimeSeries) (obs : List Observation),
      bucketSimpleSeriesLoop d ls series = .ok obs →
      ∀ o ∈ obs, o.desc = d ∧ o.labelValues = ls
  | [], obs, h => by
    simp [bucketSimpleSeriesLoop] at h
    subst h
    intro o ho
    simp at ho
  | ts :: rest, obs, h => by
    unfold bucketSimpleSeriesLoop at h
    by_cases hpts : ts.points.isEmpty
    · simp [hpts] at h
    · rw [if_neg hpts] at h
      cases hrec : bucketSimpleSeriesLoop d ls rest with
      | panicked m => rw [hrec] at h; simp at h
      | ok obsRest =>
        rw [hrec] at h
        simp at h
        subst h
        intro o ho
        rcases List.mem_cons.mp ho with rfl | ho
        · exact ⟨rfl, rfl⟩
        · exact bucketSimpleSeriesLoop_labels d ls rest obsRest hrec o ho

theorem lookup_pair_mem {β : Type} :
    ∀ (l : List (String × β)) (k : String) (v : β),
      l.lookup k = some v → ∃ kd ∈ l, kd.2 = v
  | [], k, v, h => by simp [List.lookup] at h
  | (a, b) :: t, k, v, h => by
    by_cases hk : k == a
    · simp [List.lookup, hk] at h
      exact ⟨(a, b), List.mem_cons_self _ _, by simp [h]⟩
    · simp only [List.lookup, Bool.not_eq_true] at h
      rw [Bool.eq_false_iff.mpr hk] at h
      obtain ⟨kd, hkd, hv⟩ := lookup_pair_mem t k v h
      exact ⟨kd, List.mem_cons_of_mem _ hkd, hv⟩

theorem bucketMultiSeriesLoop_labels (matrix : List (String × Desc)) (ls : List String) :
    ∀ (series : List TimeSeries) (obs : List Observation),
      bucketMultiSeriesLoop matrix ls series = .ok obs →
      ∀ o ∈ obs, (∃ kd ∈ matrix, o.desc = kd.2) ∧ o.labelValues = ls
  | [], obs, h => by
    simp [bucketMultiSeriesLoop] at h
    subst h
    intro o ho
    simp at ho
  | ts :: rest, obs, h => by
    unfold bucketMultiSeriesLoop at h
    by_cases hpts : ts.points.isEmpty
    · simp [hpts] at h
    · rw [if_neg hpts] at h
      cases hlook : matrix.lookup (metadataGet ts.metadata "type") with
      | none => rw [hlook] at h; simp at h
      | some d =>
        rw [hlook] at h
        cases hrec : bucketMultiSeriesLoop matrix ls rest with
        | panicked m => rw [hrec] at h; simp at h
        | ok obsRest =>
          rw [hrec] at h
          simp at h
          subst h
          intro o ho
          rcases List.mem_cons.mp ho with rfl | ho
          · obtain ⟨kd, hkd, hv⟩ := lookup_pair_mem matrix _ d hlook
            exact ⟨⟨kd, hkd, hv.symm⟩, rfl⟩
          · exact bucketMultiSeriesLoop_labels matrix ls rest obsRest hrec o ho

theorem handleSimpleMetric_labels (env : BucketEnv) (b : String) (mn : BucketMetricName)
    (d : Desc) (ls : List String) (out : ScrapeOutput) (o : Observation)
    (hok : handleSimpleMetric env b mn d ls = .ok out) (ho : o ∈ out.metrics)
    (hlen : ls.length = d.variableLabels.length) : labelsOk o := by
  unfold handleSimpleMetric at hok
  cases henv : env.fetchMetric b mn with
  | error e =>
    rw [henv] at hok
    simp at hok
    subst hok
    simp at ho
  | ok series =>
    rw [henv] at hok
    cases hloop : bucketSimpleSeriesLoop d ls series with
    | panicked m => simp [hloop] at hok
    | ok obs =>
      simp [hloop] at hok
      subst hok
      simp at ho
      obtain ⟨hdesc, hvals⟩ := bucketSimpleSeriesLoop_labels d ls series obs hloop o ho
      simp [labelsOk, hdesc, hvals, hlen]

theorem handleMultiMetrics_labels (env : BucketEnv) (b : String) (mn : BucketMetricName)
    (ls : List String) (out : ScrapeOutput) (o : Observation)
    (hok : handleMultiMetrics env b mn storageDescMatrix ls = .ok out)
    (ho : o ∈ out.metrics) (hlen : ls.length = 3) : labelsOk o := by
  unfold handleMultiMetrics at hok
  cases henv : env.fetchMetric b mn with
  | error e =>
    rw [henv] at hok
    simp at hok
    subst hok
    simp at ho
  | ok series =>
    rw [henv] at hok
    cases hloop : bucketMultiSeriesLoop storageDescMatrix ls series with
    | panicked m => simp [hloop] at hok
    | ok obs =>
      simp [hloop] at hok
      subst hok
      simp at ho
      obtain ⟨⟨kd, hkd, hdesc⟩, hvals⟩ :=
        bucketMultiSeriesLoop_labels storageDescMatrix ls series obs hloop o ho
      have hkd2 : kd.2.variableLabels = bucketLabels := by
        simp [storageDescMatrix] at hkd
        rcases hkd with h1 | h1 <;>
          simp [h1, storageUsageStandardDesc, storageUsageGlacierDesc]
      simp [labelsOk, hdesc, hvals, hlen, hkd2, bucketLabels]

theorem fetchMetricsForBucket_labels (env : BucketEnv) (b : String) (info : BucketInfo)
    (out : ScrapeOutput) (o : Observation)
    (hok : fetchMetricsForBucket env b info = .ok out) (ho : o ∈ out.metrics) :
    labelsOk o := by
  unfold fetchMetricsForBucket at hok
  cases h1 : handleSimpleMetric env b .objectCount objectCountDesc
      (bucketFetchLabels env b info) with
  | panicked m => rw [h1] at hok; simp [GoResult.appendOut] at hok
  | ok out1 =>
    cases h2 : handleSimpleMetric env b .bytesSent bandwidthDesc
        (bucketFetchLabels env b info) with
    | panicked m => rw [h1, h2] at hok; simp [GoResult.appendOut] at hok
    | ok out2 =>
      cases h3 : handleMultiMetrics env b .storageUsage storageDescMatrix
          (bucketFetchLabels env b info) with
      | panicked m => rw [h1, h2, h3] at hok; simp [GoResult.appendOut] at hok
      | ok out3 =>
        rw [h1, h2, h3] at hok
        simp [GoResult.appendOut] at hok
        subst hok
        simp only [ScrapeOutput.append, List.mem_append] at ho
        rcases ho with ho | ho | ho
        · exact handleSimpleMetric_labels env b .objectCount objectCountDesc _ out1 o h1 ho
            (by simp [bucketFetchLabels, objectCountDesc, bucketLabels])
        · exact handleSimpleMetric_labels env b .bytesSent bandwidthDesc _ out2 o h2 ho
            (by simp [bucketFetchLabels, bandwidthDesc, bucketLabels])
        · exact handleMultiMetrics_labels env b .storageUsage _ out3 o h3 ho
            (by simp [bucketFetchLabels])

/-- Environment for the C9 witness: one one-point cpu series for the database
instance; bucket metrics with one point each. -/
def c9DbEnv : DbEnv :=
  ⟨fun _ => .ok [[c3DbInst]],
    fun _ _ => .ok [⟨"cpu_usage_percent", [⟨7, 42⟩], [("node", "node-0")]⟩]⟩

def c9BucketEnv : BucketEnv :=
  ⟨"fr-par", fun _ _ => .ok [⟨"storage_usage", [⟨7, 42⟩], [("type", "STANDARD")]⟩]⟩



theorem dbHandleSeries_shape (inst : DbInstance) (ts : TimeSeries) (o : Observation)
    (h : o ∈ (dbHandleSeries inst ts).metrics) :
    ∃ d : Desc, dbSeriesDesc ts.name = some d ∧ d.variableLabels = dbLabelsNode ∧
      o = ⟨d, latestValueD ts.points,
        [inst.id, inst.name, metadataGet ts.metadata "node"]⟩ := by
  unfold dbHandleSeries at h
  cases hdesc : dbSeriesDesc ts.name with
  | none => simp [hdesc] at h
  | some d =>
    rw [hdesc] at h
    by_cases hpts : ts.points.isEmpty <;> simp [hpts] at h
    exact ⟨d, rfl, dbSeriesDesc_labels ts.name d hdesc, h⟩

theorem fetchMetricsForInstance_shape (env : DbEnv) (inst : DbInstance) (o : Observation)
    (h : o ∈ (fetchMetricsForInstance env inst).metrics) :
    o = dbUpObservation inst ∨
      ∃ (series : List TimeSeries) (ts : TimeSeries) (d : Desc),
        env.getInstanceMetrics inst.region inst.id = .ok series ∧ ts ∈ series ∧
        dbSeriesDesc ts.name = some d ∧ d.variableLabels = dbLabelsNode ∧
        o = ⟨d, latestValueD ts.points,
          [inst.id, inst.name, metadataGet ts.metadata "node"]⟩ := by
  unfold fetchMetricsForInstance at h
  cases henv : env.getInstanceMetrics inst.region inst.id with
  | error e =>
    rw [henv] at h
    simp [ScrapeOutput.append] at h
    exact Or.inl h
  | ok series =>
    rw [henv] at h
    simp only [ScrapeOutput.append, List.mem_append] at h
    rcases h with h | h
    · simp at h
      exact Or.inl h
    · rcases mem_joinOutputs.mp h with ⟨x, hx, ho⟩
      rcases List.mem_map.mp hx with ⟨ts, hts, rfl⟩
      obtain ⟨d, hd, hlab, heq⟩ := dbHandleSeries_shape inst ts o ho
      exact Or.inr ⟨series, ts, d, rfl, hts, hd, hlab, heq⟩

theorem lbHandleSeries_shape (l : LbInstance) (ts : TimeSeries) (o : Observation)
    (h : o ∈ (lbHandleSeries l ts).metrics) :
    ∃ d : Desc, lbSeriesCaseOf ts.name = .mapped d ∧ d.variableLabels = lbLabels ∧
      o = ⟨d, latestValueD ts.points, lbInstanceLabels l⟩ := by
  unfold lbHandleSeries at h
  cases hcase : lbSeriesCaseOf ts.name with
  | serverStatus => simp [hcase, ScrapeOutput.empty] at h
  | unmapped => simp [hcase] at h
  | mapped d =>
    rw [hcase] at h
    by_cases hpts : ts.points.isEmpty <;> simp [hpts] at h
    exact ⟨d, rfl, lbSeriesCase_labels ts.name d hcase, h⟩

theorem fetchLoadbalancerMetrics_shape (env : LbEnv) (l : LbInstance) (o : Observation)
    (h : o ∈ (fetchLoadbalancerMetrics env l).metrics) :
    o = lbUpObservation l ∨
      ∃ (series : List TimeSeries) (ts : TimeSeries) (d : Desc),
        env.getLbMetrics l.zone l.id = .ok series ∧ ts ∈ series ∧
        lbSeriesCaseOf ts.name = .mapped d ∧ d.variableLabels = lbLabels ∧
        o = ⟨d, latestValueD ts.points, lbInstanceLabels l⟩ := by
  unfold fetchLoadbalancerMetrics at h
  cases henv : env.getLbMetrics l.zone l.id with
  | error e =>
    rw [henv] at h
    simp [ScrapeOutput.append] at h
    exact Or.inl h
  | ok series =>
    rw [henv] at h
    simp only [ScrapeOutput.append, List.mem_append] at h
    rcases h with h | h
    · simp at h
      exact Or.inl h
    · rcases mem_joinOutputs.mp h with ⟨x, hx, ho⟩
      rcases List.mem_map.mp hx with ⟨ts, hts, rfl⟩
      obtain ⟨d, hd, hlab, heq⟩ := lbHandleSeries_shape l ts o ho
      exact Or.inr ⟨series, ts, d, rfl, hts, hd, hlab, heq⟩

theorem redisHandleSeries_shape (cl : RedisCluster) (ts : TimeSeries) (o : Observation)
    (h : o ∈ (redisHandleSeries cl ts).metrics) :
    ∃ d : Desc, redisSeriesDesc ts.name = some d ∧ d.variableLabels = redisLabels ∧
      o = ⟨d, latestValueD ts.points,
        [cl.id, cl.name, metadataGet ts.metadata "node"]⟩ := by
  unfold redisHandleSeries at h
  cases hdesc : redisSeriesDesc ts.name with
  | none => simp [hdesc] at h
  | some d =>
    rw [hdesc] at h
    by_cases hpts : ts.points.isEmpty <;> simp [hpts] at h
    exact ⟨d, rfl, redisSeriesDesc_labels ts.name d hdesc, h⟩

theorem fetchRedisMetrics_shape (env : RedisEnv) (z : String) (cl : RedisCluster)
    (o : Observation) (h : o ∈ (fetchRedisMetrics env z cl).metrics) :
    ∃ (series : List TimeSeries) (ts : TimeSeries) (d : Desc),
      env.getClusterMetrics z cl.id = .ok series ∧ ts ∈ series ∧
      redisSeriesDesc ts.name = some d ∧ d.variableLabels = redisLabels ∧
      o = ⟨d, latestValueD ts.points,
        [cl.id, cl.name, metadataGet ts.metadata "node"]⟩ := by
  unfold fetchRedisMetrics at h
  cases henv : env.getClusterMetrics z cl.id with
  | error e =>
    rw [henv] at h
    simp at h
  | ok series =>
    rw [henv] at h
    rcases mem_joinOutputs.mp h with ⟨x, hx, ho⟩
    rcases List.mem_map.mp hx with ⟨ts, hts, rfl⟩
    obtain ⟨d, hd, hlab, heq⟩ := redisHandleSeries_shape cl ts o ho
    exact ⟨series, ts, d, rfl, hts, hd, hlab, heq⟩

theorem handleSimpleMetric_shape (env : BucketEnv) (b : String) (mn : BucketMetricName)
    (d : Desc) (ls : List String) (out : ScrapeOutput) (o : Observation)
    (hok : handleSimpleMetric env b mn d ls = .ok out) (ho : o ∈ out.metrics) :
    o.desc = d ∧ o.labelValues = ls := by
  unfold handleSimpleMetric at hok
  cases henv : env.fetchMetric b mn with
  | error e =>
    rw [henv] at hok
    simp at hok
    subst hok
    simp at ho
  | ok series =>
    rw [henv] at hok
    cases hloop : bucketSimpleSeriesLoop d ls series with
    | panicked m => simp [hloop] at hok
    | ok obs =>
      simp [hloop] at hok
      subst hok
      simp at ho
      exact bucketSimpleSeriesLoop_labels d ls series obs hloop o ho

theorem handleMultiMetrics_shape (env : BucketEnv) (b : String) (mn : BucketMetricName)
    (ls : List String) (out : ScrapeOutput) (o : Observation)
    (hok : handleMultiMetrics env b mn storageDescMatrix ls = .ok out)
    (ho : o ∈ out.metrics) :
    o.desc.variableLabels = bucketLabels ∧ o.labelValues = ls := by
  unfold handleMultiMetrics at hok
  cases henv : env.fetchMetric b mn with
  | error e =>
    rw [henv] at hok
    simp at hok
    subst hok
    simp at ho
  | ok series =>
    rw [henv] at hok
    cases hloop : bucketMultiSeriesLoop storageDescMatrix ls series with
    | panicked m => simp [hloop] at hok
    | ok obs =>
      simp [hloop] at hok
      subst hok
      simp at ho
      obtain ⟨⟨kd, hkd, hdesc⟩, hvals⟩ :=
        bucketMultiSeriesLoop_labels storageDescMatrix ls series obs hloop o ho
      have hkd2 : kd.2.variableLabels = bucketLabels := by
        simp [storageDescMatrix] at hkd
        rcases hkd with h1 | h1 <;>
          simp [h1, storageUsageStandardDesc, storageUsageGlacierDesc]
      exact ⟨by rw [hdesc]; exact hkd2, hvals⟩

theorem fetchMetricsForBucket_shape (env : BucketEnv) (b : String) (info : BucketInfo)
    (out : ScrapeOutput) (o : Observation)
    (hok : fetchMetricsForBucket env b info = .ok out) (ho : o ∈ out.metrics) :
    o.labelValues = bucketFetchLabels env b info ∧
      o.desc.variableLabels = bucketLabels := by
  unfold fetchMetricsForBucket at hok
  cases h1 : handleSimpleMetric env b .objectCount objectCountDesc
      (bucketFetchLabels env b info) with
  | panicked m => rw [h1] at hok; simp [GoResult.appendOut] at hok
  | ok out1 =>
    cases h2 : handleSimpleMetric env b .bytesSent bandwidthDesc
        (bucketFetchLabels env b info) with
    | panicked m => rw [h1, h2] at hok; simp [GoResult.appendOut] at hok
    | ok out2 =>
      cases h3 : handleMultiMetrics env b .storageUsage storageDescMatrix
          (bucketFetchLabels env b info) with
      | panicked m => rw [h1, h2, h3] at hok; simp [GoResult.appendOut] at hok
      | ok out3 =>
        rw [h1, h2, h3] at hok
        simp [GoResult.appendOut] at hok
        subst hok
        simp only [ScrapeOutput.append, List.mem_append] at ho
        rcases ho with ho | ho | ho
        · obtain ⟨hd, hv⟩ := handleSimpleMetric_shape env b .objectCount objectCountDesc
            _ out1 o h1 ho
          refine ⟨hv, by rw [hd]; rfl⟩
        · obtain ⟨hd, hv⟩ := handleSimpleMetric_shape env b .bytesSent bandwidthDesc
            _ out2 o h2 ho
          refine ⟨hv, by rw [hd]; rfl⟩
        · obtain ⟨hd, hv⟩ := handleMultiMetrics_shape env b .storageUsage _ out3 o h3 ho
          exact ⟨hv, hd⟩

theorem billingCollect_shape (env : BillingEnv) (orgID : String) (o : Observation)
    (h : o ∈ (billingCollect env orgID).metrics) :
    ∃ (pages : List (List BillingProject)) (resp : BillingResponse),
      env.listProjects orgID = .ok pages ∧ env.getConsumption orgID = .ok resp ∧
      ((∃ co ∈ resp.consumptions,
          o = billingConsumptionObs (scwList pages true) co) ∨
        o = ⟨updateDesc, (resp.updatedAtUnix : Rat), []⟩) := by
  unfold billingCollect at h
  cases hp : env.listProjects orgID with
  | error e =>
    rw [hp] at h
    simp at h
  | ok pages =>
    rw [hp] at h
    by_cases hempty : (scwList pages true).isEmpty
    · simp [hempty] at h
    · simp only [if_neg hempty] at h
      cases hc : env.getConsumption orgID with
      | error e =>
        rw [hc] at h
        simp at h
      | ok resp =>
        rw [hc] at h
        simp at h
        rcases h with ⟨co, hco, rfl⟩ | rfl
        · exact ⟨pages, resp, rfl, rfl, Or.inl ⟨co, hco, rfl⟩⟩
        · exact ⟨pages, resp, rfl, rfl, Or.inr rfl⟩

theorem billingCollect_labels (env : BillingEnv) (orgID : String) (o : Observation)
    (h : o ∈ (billingCollect env orgID).metrics) : labelsOk o := by
  obtain ⟨pages, resp, hp, hc, hsh⟩ := billingCollect_shape env orgID o h
  rcases hsh with ⟨co, hco, rfl⟩ | rfl
  · simp [labelsOk, billingConsumptionObs, consumptionsDesc, billingLabels]
  · simp [labelsOk, updateDesc]

/-- Claim C9: every observation emitted by any collector carries label values
matching its descriptor schema in both LENGTH and ORDER, for every
environment and every resource — no emit site can produce a mismatch.  The
order is pinned positionally against each declared schema: the database up
gauge supplies [id, name, region, engine, type] of the processed instance
against schema ["id","name","region","engine","type"], and its per-node
series supply [id, name, node-of-the-fetched-series] against
["id","name","node"]; the load balancer supplies [id, name, zone, type]
against ["id","name","zone","type"] for the up gauge and every series; redis
supplies [id, name, node] against ["id","name","node"]; the bucket handlers
supply [name, region, public] against ["name","region","public"]; billing
supplies [project_id, project_name, category, operation_path, description,
currency_code] against the same-named schema, and an empty list for the
unlabeled freshness gauge.  The final four conjuncts state the resulting
arity invariant at whole-scrape granularity. -/
theorem claim_C9 :
    (∀ (env : DbEnv) (inst : DbInstance) (o : Observation),
      o ∈ (fetchMetricsForInstance env inst).metrics →
      o = ⟨dbUpDesc, databaseUpValue inst.status,
            [inst.id, inst.name, inst.region, inst.engine, inst.nodeType]⟩ ∨
        ∃ (series : List TimeSeries) (ts : TimeSeries) (d : Desc),
          env.getInstanceMetrics inst.region inst.id = .ok series ∧ ts ∈ series ∧
          dbSeriesDesc ts.name = some d ∧ d.variableLabels = dbLabelsNode ∧
          o = ⟨d, latestValueD ts.points,
            [inst.id, inst.name, metadataGet ts.metadata "node"]⟩) ∧
    (∀ (env : LbEnv) (l : LbInstance) (o : Observation),
      o ∈ (fetchLoadbalancerMetrics env l).metrics →
      o = ⟨lbUpDesc, lbUpValue l.status, [l.id, l.name, l.zone, l.typ]⟩ ∨
        ∃ (series : List TimeSeries) (ts : TimeSeries) (d : Desc),
          env.getLbMetrics l.zone l.id = .ok series ∧ ts ∈ series ∧
          lbSeriesCaseOf ts.name = .mapped d ∧ d.variableLabels = lbLabels ∧
          o = ⟨d, latestValueD ts.points, [l.id, l.name, l.zone, l.typ]⟩) ∧
    (∀ (env : RedisEnv) (z : String) (cl : RedisCluster) (o : Observation),
      o ∈ (fetchRedisMetrics env z cl).metrics →
      ∃ (series : List TimeSeries) (ts : TimeSeries) (d : Desc),
        env.getClusterMetrics z cl.id = .ok series ∧ ts ∈ series ∧
        redisSeriesDesc ts.name = some d ∧ d.variableLabels = redisLabels ∧
        o = ⟨d, latestValueD ts.points,
          [cl.id, cl.name, metadataGet ts.metadata "node"]⟩) ∧
    (∀ (env : BucketEnv) (b : String) (info : BucketInfo) (out : ScrapeOutput)
      (o : Observation),
      fetchMetricsForBucket env b info = .ok out → o ∈ out.metrics →
      o.labelValues = [b, env.region, goBoolString info.isPublic] ∧
        o.desc.variableLabels = bucketLabels) ∧
    (∀ (env : BillingEnv) (orgID : String) (o : Observation),
      o ∈ (billingCollect env orgID).metrics →
      ∃ (pages : List (List BillingProject)) (resp : BillingResponse),
        env.listProjects orgID = .ok pages ∧ env.getConsumption orgID = .ok resp ∧
        ((∃ co ∈ resp.consumptions,
            o = ⟨consumptionsDesc, consumptionValueRat co.value,
                  [co.projectID,
                    metadataGet (billingProjectsMap (scwList pages true)) co.projectID,
                    co.category, co.operationPath, co.description,
                    co.value.currencyCode]⟩) ∨
          o = ⟨updateDesc, (resp.updatedAtUnix : Rat), []⟩)) ∧
    (∀ (env : DbEnv) (regions : List String) (o : Observation),
      o ∈ (dbCollect env regions).metrics → labelsOk o) ∧
    (∀ (env : LbEnv) (zones : List String) (o : Observation),
      o ∈ (lbCollect env zones).metrics → labelsOk o) ∧
    (∀ (env : RedisEnv) (zones : List String) (o : Observation),
      o ∈ (redisCollect env zones).metrics → labelsOk o) ∧
    (∀ (env : BillingEnv) (orgID : String) (o : Observation),
      o ∈ (billingCollect env orgID).metrics → labelsOk o) :=
  ⟨fun env inst o h => fetchMetricsForInstance_shape env inst o h,
    fun env l o h => fetchLoadbalancerMetrics_shape env l o h,
    fun env z cl o h => fetchRedisMetrics_shape env z cl o h,
    fun env b info out o hok ho => fetchMetricsForBucket_shape env b info out o hok ho,
    fun env orgID o h => billingCollect_shape env orgID o h,
    fun env regions o h => dbCollect_labels env regions o h,
    fun env zones o h => lbCollect_labels env zones o h,
    fun env zones o h => redisCollect_labels env zones o h,
    fun env orgID o h => billingCollect_labels env orgID o h⟩

/-- Environment for the billing part of the C9 witness: one project, an empty
consumption list, report epoch 1700000000 (so the run emits exactly the
unlabeled freshness gauge). -/
def c9BillingEnv : BillingEnv :=
  ⟨fun _ => .ok [[⟨"p-1", "project-one"⟩]], fun _ => .ok ⟨[], 1700000000⟩⟩

/-- Witness for C9: the bucket shape conjunct, the database whole-scrape
arity conjunct and the billing arity conjunct, each applied at a concrete
environment and a concretely emitted observation. -/
theorem claim_C9_witness :
    ((⟨storageUsageStandardDesc, 42, ["b", "fr-par", "true"]⟩ : Observation).labelValues =
        ["b", "fr-par", "true"] ∧
      (⟨storageUsageStandardDesc, 42, ["b", "fr-par", "true"]⟩ : Observation).desc.variableLabels =
        bucketLabels) ∧
    labelsOk ⟨dbCPUsDesc, 42,
      ["11111111-aaaa-bbbb-cccc-000000000002", "db-two", "node-0"]⟩ ∧
    labelsOk ⟨updateDesc, ((1700000000 : Int) : Rat), []⟩ := by
  refine ⟨?_, ?_, ?_⟩
  · exact claim_C9.2.2.2.1 c9BucketEnv "b" ⟨true⟩
      ⟨[⟨objectCountDesc, 42, ["b", "fr-par", "true"]⟩,
          ⟨bandwidthDesc, 42, ["b", "fr-par", "true"]⟩,
          ⟨storageUsageStandardDesc, 42, ["b", "fr-par", "true"]⟩], [], []⟩
      ⟨storageUsageStandardDesc, 42, ["b", "fr-par", "true"]⟩
      (by decide) (by decide)
  · exact claim_C9.2.2.2.2.2.1 c9DbEnv ["fr-par"]
      ⟨dbCPUsDesc, 42, ["11111111-aaaa-bbbb-cccc-000000000002", "db-two", "node-0"]⟩
      (by decide)
  · exact claim_C9.2.2.2.2.2.2.2.2 c9BillingEnv "org-1"
      ⟨updateDesc, ((1700000000 : Int) : Rat), []⟩
      (by simp [billingCollect, c9BillingEnv, scwList])
